import Mathlib

/-!
# Verification development for `iptx.c` (UDP / TCP channel descriptors)

Shallow embedding of the channel pools, the UDP set-up / send / receive / flush
operations and the TCP open / close / send operations of `src/iptx.c`.

* C `int` / `unsigned` values are `Int` / `Nat`.
* A memory region (`char*` buffer, the scratch array `chnl->buff`) is a
  function from byte offset to byte value; the text of an address
  (`char* serverAdd`) is the list of its character codes.
* Every call that leaves the module (`socket`, `setsockopt`, `bind`, `sendto`,
  `select`, `recvfrom`, `connect`, `shutdown`, `send`, `UTIL_SetTimeout`,
  `UTIL_TimedOut`, `fprintf(stderr, ..)`) is answered by an environment `Env`
  acting on an operating-system state and is appended, with its result, to a
  trace, so that "performs no I/O" and "calls exactly once" are statements
  about the trace.
* The `do .. while` loops take a fuel argument bounding the number of
  iterations; `none` means the loop is still running when the fuel is spent.
-/

namespace Iptx

/-! ## Constants of the headers -/

/-- Modelled from the spec: `K_FALSE` of `SysDefs.h` (not in the sources): the
ready flags are booleans and the functions document "1 if initialised, otherwise 0". -/
def K_FALSE : Nat := 0

/-- Modelled from the spec: `K_TRUE` of `SysDefs.h` (not in the sources). -/
def K_TRUE : Nat := 1

/-- Modelled from the spec: the "invalid socket" sentinel. `INVALID_SOCKET`
is `(SOCKET)(~0)`, stored through the `(int)` casts of the code as `-1`. -/
def INVALID_SOCKET : Int := -1

/-- Modelled from the spec: the error sentinel `SOCKET_ERROR` of the socket API. -/
def SOCKET_ERROR : Int := -1

/-- Address family `AF_INET` of the socket API headers. -/
def AF_INET : Int := 2

/-- Protocol family `PF_INET` of the socket API headers. -/
def PF_INET : Int := 2

/-- Socket type `SOCK_STREAM` of the socket API headers. -/
def SOCK_STREAM : Int := 1

/-- Socket type `SOCK_DGRAM` of the socket API headers. -/
def SOCK_DGRAM : Int := 2

/-- Protocol number `IPPROTO_UDP` of the socket API headers. -/
def IPPROTO_UDP : Int := 17

/-- Option level `SOL_SOCKET` of the Winsock headers. -/
def SOL_SOCKET : Int := 65535

/-- Option name `SO_REUSEADDR` of the Winsock headers. -/
def SO_REUSEADDR : Int := 4

/-- Wildcard address `INADDR_ANY` of the socket API headers. -/
def INADDR_ANY : Nat := 0

/-- Capacity of the UDP pool: `#define ETH_UDP_CHNL_MAX 7`. -/
def ETH_UDP_CHNL_MAX : Nat := 7

/-- Capacity of the TCP pool: `#define ETH_TCP_CHNL_MAX 10`. -/
def ETH_TCP_CHNL_MAX : Nat := 10

/-! ## Data model -/

/-- The C `struct sockaddr_in` (the three fields the code assigns). -/
structure sockaddr_in where
  sin_family : Int
  sin_addr : Nat
  sin_port : Nat
  deriving DecidableEq, Repr

/-- The C `struct timeval`. -/
structure timeval where
  tv_sec : Nat
  tv_usec : Nat
  deriving DecidableEq, Repr

/-- A memory region addressed by byte offset. -/
abbrev Mem := Nat → Nat

/-- Modelled from the spec: the UDP channel descriptor `t_ethUdpChnl` of
`Ethernet.h` (not in the sources), with the fields `iptx.c` accesses. -/
structure t_ethUdpChnl where
  TxIsInit : Nat
  RxIsInit : Nat
  socket : Int
  ServerAddress : sockaddr_in
  ClientAddress : sockaddr_in
  buff : Mem

/-- Modelled from the spec: the TCP channel descriptor `t_ethTcpChnl` of
`Ethernet.h` (not in the sources), with the fields `iptx.c` accesses. -/
structure t_ethTcpChnl where
  connect : Nat
  socket : Int
  ServerAddress : sockaddr_in
  deriving DecidableEq, Repr

/-- The diagnostics written with `fprintf(stderr, ..)`, one constructor per
format string of the file. -/
inductive Diag
  | udpTooManySockets
  | udpIncreaseMax
  | initTxSocketFailed
  | initRxSocketFailed
  | initRxSetsockoptFailed
  | initRxBindFailed
  | sendDataTxNotInit
  | recvFromRxNotInit
  | recvFromBadTimeout
  | recvFromSelectFailed
  | recvFromRecvfromFailed
  | recvDataRxNotInit
  | recvDataBadTimeout
  | recvDataSelectFailed
  | recvDataRecvfromFailed
  | flushRxNotInit
  | flushRecvfromFailed
  | tcpInvalidIndex
  | tcpIncreaseMax
  | openAlreadyOpen
  | openSocketFailed
  | openConnectFailed
  | closeShutdownFailed
  | tcpSendNotConnected
  | tcpSendFailed
  | tcpSendShort
  deriving DecidableEq, Repr

/-- One call leaving the module, with its arguments and its result. -/
inductive Call
  | socket (af type protocol : Int) (ret : Int)
  | setsockopt (s level optname optval : Int) (ret : Int)
  | bind (s : Int) (addr : sockaddr_in) (ret : Int)
  | sendto (s : Int) (data : List Nat) (addr : sockaddr_in) (ret : Int)
  | select (nfds : Int) (tv : timeval) (ret : Int) (isset : Bool)
  | recvfrom (s : Int) (len : Nat) (ret : Int) (bytes : List Nat)
  | connect (s : Int) (addr : sockaddr_in) (ret : Int)
  | shutdown (s how : Int) (ret : Int)
  | send (s : Int) (data : List Nat) (ret : Int)
  | UTIL_SetTimeout (timeout : Nat) (timer : Nat)
  | UTIL_TimedOut (timer : Nat) (ret : Bool)
  | fprintf (msg : Diag)
  deriving DecidableEq, Repr

/-- The environment: how the operating system and the timer utility answer
each call, as functions of an operating-system state `W`. -/
structure Env (W : Type) where
  socket : Int → Int → Int → W → Int × W
  setsockopt : Int → Int → Int → Int → W → Int × W
  bind : Int → sockaddr_in → W → Int × W
  sendto : Int → List Nat → sockaddr_in → W → Int × W
  select : Int → timeval → W → (Int × Bool) × W
  recvfrom : Int → Nat → W → (Int × List Nat) × W
  connect : Int → sockaddr_in → W → Int × W
  shutdown : Int → Int → W → Int × W
  send : Int → List Nat → W → Int × W
  UTIL_SetTimeout : Nat → W → Nat × W
  UTIL_TimedOut : Nat → W → Bool × W
  inet_addr : List Nat → Nat
  htons : Nat → Nat
  htonl : Nat → Nat

/-- The world outside the module: operating-system state and the trace of the
calls made so far. -/
structure World (W : Type) where
  os : W
  trace : List Call

/-! ## Memory primitives -/

/-- The first `n` bytes of a region, as a list. -/
def Mem.read (m : Mem) (n : Nat) : List Nat := (List.range n).map m

/-- Region `m` after `bytes` were stored at its start. -/
def Mem.store (m : Mem) (bytes : List Nat) : Mem :=
  fun i => if i < bytes.length then bytes.getD i 0 else m i

/-- The C `memcpy(dst, src, n)`. -/
def memcpy (dst src : Mem) (n : Nat) : Mem :=
  fun i => if i < n then src i else dst i

/-- The C `memset(dst, c, n)`. -/
def memset (dst : Mem) (c : Nat) (n : Nat) : Mem :=
  fun i => if i < n then c else dst i

/-! ## Calls leaving the module -/

section Calls
variable {W : Type}

def sys_fprintf (msg : Diag) (w : World W) : World W :=
  { w with trace := w.trace ++ [Call.fprintf msg] }

def sys_socket (env : Env W) (af type protocol : Int) (w : World W) : Int × World W :=
  let r := env.socket af type protocol w.os
  (r.1, { os := r.2, trace := w.trace ++ [Call.socket af type protocol r.1] })

def sys_setsockopt (env : Env W) (s level optname optval : Int) (w : World W) :
    Int × World W :=
  let r := env.setsockopt s level optname optval w.os
  (r.1, { os := r.2, trace := w.trace ++ [Call.setsockopt s level optname optval r.1] })

def sys_bind (env : Env W) (s : Int) (addr : sockaddr_in) (w : World W) : Int × World W :=
  let r := env.bind s addr w.os
  (r.1, { os := r.2, trace := w.trace ++ [Call.bind s addr r.1] })

def sys_sendto (env : Env W) (s : Int) (data : Mem) (size : Nat) (addr : sockaddr_in)
    (w : World W) : Int × World W :=
  let r := env.sendto s (data.read size) addr w.os
  (r.1, { os := r.2, trace := w.trace ++ [Call.sendto s (data.read size) addr r.1] })

/-- The call `select(nfds, &readFlags, NULL, NULL, &timeVal)` with the single socket in
the read set; the Boolean is `FD_ISSET(socket, &readFlags)` afterwards. -/
def sys_select (env : Env W) (nfds : Int) (tv : timeval) (w : World W) :
    (Int × Bool) × World W :=
  let r := env.select nfds tv w.os
  (r.1, { os := r.2, trace := w.trace ++ [Call.select nfds tv r.1.1 r.1.2] })

/-- The call `recvfrom(s, buf, len, 0, &fromAddr, &fromSize)`: the environment gives the
return value and the bytes delivered; at most `len` of them reach `buf`. -/
def sys_recvfrom (env : Env W) (s : Int) (buf : Mem) (len : Nat) (w : World W) :
    Int × Mem × World W :=
  let r := env.recvfrom s len w.os
  (r.1.1, buf.store (r.1.2.take len),
    { os := r.2, trace := w.trace ++ [Call.recvfrom s len r.1.1 r.1.2] })

def sys_connect (env : Env W) (s : Int) (addr : sockaddr_in) (w : World W) : Int × World W :=
  let r := env.connect s addr w.os
  (r.1, { os := r.2, trace := w.trace ++ [Call.connect s addr r.1] })

def sys_shutdown (env : Env W) (s how : Int) (w : World W) : Int × World W :=
  let r := env.shutdown s how w.os
  (r.1, { os := r.2, trace := w.trace ++ [Call.shutdown s how r.1] })

def sys_send (env : Env W) (s : Int) (data : Mem) (size : Nat) (w : World W) :
    Int × World W :=
  let r := env.send s (data.read size) w.os
  (r.1, { os := r.2, trace := w.trace ++ [Call.send s (data.read size) r.1] })

def sys_SetTimeout (env : Env W) (timeout : Nat) (w : World W) : Nat × World W :=
  let r := env.UTIL_SetTimeout timeout w.os
  (r.1, { os := r.2, trace := w.trace ++ [Call.UTIL_SetTimeout timeout r.1] })

def sys_TimedOut (env : Env W) (timer : Nat) (w : World W) : Bool × World W :=
  let r := env.UTIL_TimedOut timer w.os
  (r.1, { os := r.2, trace := w.trace ++ [Call.UTIL_TimedOut timer r.1] })

end Calls

/-! ## The channel pools -/

/-- The static UDP pool: `ListUdpChannels` and `indexUdp`. The cursor is a C
`int` that starts at 0 and is incremented only below the capacity, so it never
leaves `0 .. ETH_UDP_CHNL_MAX` and is a natural number here. -/
structure UdpPool where
  ListUdpChannels : Fin ETH_UDP_CHNL_MAX → t_ethUdpChnl
  indexUdp : Nat

/-- The static TCP pool: `ListTcpChannels` and `indexTcp`, the cursor a natural
number as for the UDP pool. -/
structure TcpPool where
  ListTcpChannels : Fin ETH_TCP_CHNL_MAX → t_ethTcpChnl
  indexTcp : Nat

/-- Source function `ETH_UDP_SetDefaultVal`. -/
def ETH_UDP_SetDefaultVal (ptr : t_ethUdpChnl) : t_ethUdpChnl :=
  { ptr with TxIsInit := K_FALSE, RxIsInit := K_FALSE, socket := INVALID_SOCKET }

/-- Source function `ETH_TCP_SetDefaultVal`. -/
def ETH_TCP_SetDefaultVal (ptr : t_ethTcpChnl) : t_ethTcpChnl :=
  { ptr with connect := K_FALSE, socket := INVALID_SOCKET }

/-- Result of a factory call: the returned pointer (`none` is `NULL`, `some i`
is `&List..Channels[i]`), the pool afterwards and the diagnostics written. -/
structure GetResult (P : Type) (n : Nat) where
  ptr : Option (Fin n)
  pool : P
  diag : List Call

/-- Source function `ETH_UDP_GetInstance` (the `USE_STATIC_MEM` branch, which is the one compiled). -/
def ETH_UDP_GetInstance (p : UdpPool) : GetResult UdpPool ETH_UDP_CHNL_MAX :=
  if h : p.indexUdp < ETH_UDP_CHNL_MAX then
    { ptr := some ⟨p.indexUdp, h⟩
      pool :=
        { ListUdpChannels :=
            Function.update p.ListUdpChannels ⟨p.indexUdp, h⟩
              (ETH_UDP_SetDefaultVal (p.ListUdpChannels ⟨p.indexUdp, h⟩))
          indexUdp := p.indexUdp + 1 }
      diag := [] }
  else
    { ptr := none
      pool := p
      diag := [Call.fprintf Diag.udpTooManySockets, Call.fprintf Diag.udpIncreaseMax] }

/-- Source function `ETH_TCP_GetInstance` (the `USE_STATIC_MEM` branch). -/
def ETH_TCP_GetInstance (p : TcpPool) : GetResult TcpPool ETH_TCP_CHNL_MAX :=
  if h : p.indexTcp < ETH_TCP_CHNL_MAX then
    { ptr := some ⟨p.indexTcp, h⟩
      pool :=
        { ListTcpChannels :=
            Function.update p.ListTcpChannels ⟨p.indexTcp, h⟩
              (ETH_TCP_SetDefaultVal (p.ListTcpChannels ⟨p.indexTcp, h⟩))
          indexTcp := p.indexTcp + 1 }
      diag := [] }
  else
    { ptr := none
      pool := p
      diag := [Call.fprintf Diag.tcpInvalidIndex, Call.fprintf Diag.tcpIncreaseMax] }

/-- The pointers returned by `n` successive calls of `ETH_UDP_GetInstance`,
first call first, and the pool afterwards. -/
def udpAcquire : Nat → UdpPool → List (Option (Fin ETH_UDP_CHNL_MAX)) × UdpPool
  | 0, p => ([], p)
  | n + 1, p =>
    let r := ETH_UDP_GetInstance p
    let rest := udpAcquire n r.pool
    (r.ptr :: rest.1, rest.2)

/-- The pointers returned by `n` successive calls of `ETH_TCP_GetInstance`,
first call first, and the pool afterwards. -/
def tcpAcquire : Nat → TcpPool → List (Option (Fin ETH_TCP_CHNL_MAX)) × TcpPool
  | 0, p => ([], p)
  | n + 1, p =>
    let r := ETH_TCP_GetInstance p
    let rest := tcpAcquire n r.pool
    (r.ptr :: rest.1, rest.2)

/-! ## C integer conversions -/

/-- Conversion of an `int` to `unsigned` (32 bits). -/
def toUnsigned (x : Int) : Nat := (x % 4294967296).toNat

/-- Conversion of an `unsigned` (32 bits) to `int`. -/
def toInt (x : Nat) : Int :=
  if x % 4294967296 < 2147483648 then ((x % 4294967296 : Nat) : Int)
  else ((x % 4294967296 : Nat) : Int) - 4294967296

/-- Conversion of an `int` port number to `u_short`, the argument type of `htons`. -/
def toUShort (x : Int) : Nat := (x % 65536).toNat

/-! ## UDP operations -/

section Ops
variable {W : Type}

/-- What an operation gives back: its return value, the descriptor afterwards
and the world afterwards. -/
structure Out (R C W : Type) where
  ret : R
  chnl : C
  world : World W

/-- First step of `ETH_UDP_InitTx` and `ETH_UDP_InitRx`: a socket is created only
if the descriptor holds `INVALID_SOCKET`. -/
def udpEnsureSocket (env : Env W) (chnl : t_ethUdpChnl) (w : World W) :
    t_ethUdpChnl × World W :=
  if chnl.socket = INVALID_SOCKET then
    let r := sys_socket env AF_INET SOCK_DGRAM IPPROTO_UDP w
    ({ chnl with socket := r.1 }, r.2)
  else (chnl, w)

/-- Source function `ETH_UDP_InitTx`. -/
def ETH_UDP_InitTx (env : Env W) (chnl : t_ethUdpChnl) (serverAdd : List Nat) (servPort : Int)
    (w : World W) : Out Nat t_ethUdpChnl W :=
  let c0 := { chnl with TxIsInit := K_FALSE }
  let s := udpEnsureSocket env c0 w
  if s.1.socket = INVALID_SOCKET then
    { ret := s.1.TxIsInit, chnl := s.1, world := sys_fprintf Diag.initTxSocketFailed s.2 }
  else
    let c1 := { s.1 with
      ServerAddress :=
        { sin_family := AF_INET
          sin_addr := env.inet_addr serverAdd
          sin_port := env.htons (toUShort servPort) }
      TxIsInit := K_TRUE }
    { ret := c1.TxIsInit, chnl := c1, world := s.2 }

/-- Source function `ETH_UDP_InitRx`. The `clientAdd` argument is not used by the code. -/
def ETH_UDP_InitRx (env : Env W) (chnl : t_ethUdpChnl) (_clientAdd : List Nat)
    (clientPort : Int) (w : World W) : Out Nat t_ethUdpChnl W :=
  let c0 := { chnl with RxIsInit := K_FALSE }
  let s := udpEnsureSocket env c0 w
  if s.1.socket = INVALID_SOCKET then
    { ret := s.1.RxIsInit, chnl := s.1, world := sys_fprintf Diag.initRxSocketFailed s.2 }
  else
    let c1 := { s.1 with
      ClientAddress :=
        { sin_family := AF_INET
          sin_addr := env.htonl INADDR_ANY
          sin_port := env.htons (toUShort clientPort) } }
    let o := sys_setsockopt env c1.socket SOL_SOCKET SO_REUSEADDR 1 s.2
    if o.1 = SOCKET_ERROR then
      { ret := c1.RxIsInit, chnl := c1, world := sys_fprintf Diag.initRxSetsockoptFailed o.2 }
    else
      let b := sys_bind env c1.socket c1.ClientAddress o.2
      if b.1 = 0 then
        let c2 := { c1 with RxIsInit := K_TRUE }
        { ret := c2.RxIsInit, chnl := c2, world := b.2 }
      else
        { ret := c1.RxIsInit, chnl := c1, world := sys_fprintf Diag.initRxBindFailed b.2 }

/-- Source function `ETH_UDP_SendData`. The condition of the `if` is the
assignment `chnl->TxIsInit = K_TRUE`: the flag is overwritten and the value
assigned is what is tested. -/
def ETH_UDP_SendData (env : Env W) (chnl : t_ethUdpChnl) (data : Mem) (size : Nat)
    (w : World W) : Out Int t_ethUdpChnl W :=
  let c0 := { chnl with TxIsInit := K_TRUE }
  if c0.TxIsInit ≠ 0 then
    let r := sys_sendto env c0.socket data size c0.ServerAddress w
    { ret := r.1, chnl := c0, world := r.2 }
  else
    { ret := 0, chnl := c0, world := sys_fprintf Diag.sendDataTxNotInit w }

/-- State of a receive loop: `result`, the descriptor, the caller's buffer and
the world. -/
structure RecvState (W : Type) where
  result : Int
  chnl : t_ethUdpChnl
  buff : Mem
  world : World W

/-- The `timeVal` computed from the timeout in milliseconds. -/
def timevalOfMs (timeout : Nat) : timeval :=
  { tv_sec := timeout / 1000, tv_usec := (timeout % 1000) * 1000 }

/-- Body of the `do .. while` loop of `ETH_UDP_recvFrom`: one `select`, and one
`recvfrom` into the scratch buffer when the socket is readable, followed by
the `memcpy` of `min(result, maxSize)` bytes into the caller's buffer. The
count is not negative when `maxSize` is not; the conversion of a negative
count to `size_t` is outside this model. -/
def recvFrom_body (env : Env W) (ETH_BUF_SIZE : Nat) (maxSize : Int) (tv : timeval)
    (chnl : t_ethUdpChnl) (buff : Mem) (w : World W) : RecvState W :=
  let sel := sys_select env (chnl.socket + 1) tv w
  if sel.1.1 = SOCKET_ERROR then
    { result := sel.1.1, chnl := chnl, buff := buff,
      world := sys_fprintf Diag.recvFromSelectFailed sel.2 }
  else if sel.1.1 > 0 then
    if sel.1.2 then
      let rc := sys_recvfrom env chnl.socket chnl.buff ETH_BUF_SIZE sel.2
      let c1 := { chnl with buff := rc.2.1 }
      if rc.1 < 0 then
        { result := rc.1, chnl := c1, buff := buff,
          world := sys_fprintf Diag.recvFromRecvfromFailed rc.2.2 }
      else
        { result := rc.1, chnl := c1, buff := memcpy buff c1.buff (min rc.1 maxSize).toNat,
          world := rc.2.2 }
    else { result := sel.1.1, chnl := chnl, buff := buff, world := sel.2 }
  else { result := sel.1.1, chnl := chnl, buff := buff, world := sel.2 }

/-- The `do .. while (result == 0 && !UTIL_TimedOut(timer))` loop of
`ETH_UDP_recvFrom`, at most `fuel` iterations. -/
def recvFrom_loop (env : Env W) (ETH_BUF_SIZE : Nat) (maxSize : Int) (tv : timeval)
    (timer : Nat) : Nat → t_ethUdpChnl → Mem → World W → Option (RecvState W)
  | 0, _, _, _ => none
  | fuel + 1, chnl, buff, w =>
    let st := recvFrom_body env ETH_BUF_SIZE maxSize tv chnl buff w
    if st.result = 0 then
      let t := sys_TimedOut env timer st.world
      if t.1 then some { st with world := t.2 }
      else recvFrom_loop env ETH_BUF_SIZE maxSize tv timer fuel st.chnl st.buff t.2
    else some st

/-- Source function `ETH_UDP_recvFrom`. -/
def ETH_UDP_recvFrom (env : Env W) (ETH_BUF_SIZE : Nat) (fuel : Nat) (chnl : t_ethUdpChnl)
    (buff : Mem) (maxSize : Int) (timeout : Nat) (w : World W) : Option (RecvState W) :=
  if chnl.RxIsInit = 0 then
    some { result := 0, chnl := chnl, buff := buff,
           world := sys_fprintf Diag.recvFromRxNotInit w }
  else if timeout = 0 then
    some { result := 0, chnl := chnl, buff := buff,
           world := sys_fprintf Diag.recvFromBadTimeout w }
  else
    let tm := sys_SetTimeout env timeout w
    recvFrom_loop env ETH_BUF_SIZE maxSize (timevalOfMs timeout) tm.1 fuel chnl buff tm.2

/-- Body of the `do .. while` loop of `ETH_UDP_recvData`: one `select`, and one
`recvfrom` straight into the caller's buffer when the socket is readable. -/
def recvData_body (env : Env W) (expectedSize : Int) (tv : timeval)
    (chnl : t_ethUdpChnl) (buff : Mem) (w : World W) : RecvState W :=
  let sel := sys_select env (chnl.socket + 1) tv w
  if sel.1.1 < 0 then
    { result := sel.1.1, chnl := chnl, buff := buff,
      world := sys_fprintf Diag.recvDataSelectFailed sel.2 }
  else if sel.1.1 > 0 then
    if sel.1.2 then
      let rc := sys_recvfrom env chnl.socket buff expectedSize.toNat sel.2
      if rc.1 = SOCKET_ERROR then
        { result := rc.1, chnl := chnl, buff := rc.2.1,
          world := sys_fprintf Diag.recvDataRecvfromFailed rc.2.2 }
      else
        { result := rc.1, chnl := chnl, buff := rc.2.1, world := rc.2.2 }
    else { result := sel.1.1, chnl := chnl, buff := buff, world := sel.2 }
  else { result := sel.1.1, chnl := chnl, buff := buff, world := sel.2 }

/-- The `do .. while (result == 0 && !UTIL_TimedOut(timer))` loop of
`ETH_UDP_recvData`, at most `fuel` iterations. -/
def recvData_loop (env : Env W) (expectedSize : Int) (tv : timeval)
    (timer : Nat) : Nat → t_ethUdpChnl → Mem → World W → Option (RecvState W)
  | 0, _, _, _ => none
  | fuel + 1, chnl, buff, w =>
    let st := recvData_body env expectedSize tv chnl buff w
    if st.result = 0 then
      let t := sys_TimedOut env timer st.world
      if t.1 then some { st with world := t.2 }
      else recvData_loop env expectedSize tv timer fuel st.chnl st.buff t.2
    else some st

/-- Source function `ETH_UDP_recvData`. -/
def ETH_UDP_recvData (env : Env W) (fuel : Nat) (chnl : t_ethUdpChnl)
    (buff : Mem) (expectedSize : Int) (timeout : Nat) (w : World W) : Option (RecvState W) :=
  if chnl.RxIsInit = 0 then
    some { result := 0, chnl := chnl, buff := buff,
           world := sys_fprintf Diag.recvDataRxNotInit w }
  else if timeout = 0 then
    some { result := 0, chnl := chnl, buff := buff,
           world := sys_fprintf Diag.recvDataBadTimeout w }
  else
    let tm := sys_SetTimeout env timeout w
    recvData_loop env expectedSize (timevalOfMs timeout) tm.1 fuel chnl buff tm.2

/-- The `do .. while (result > 0)` loop of `ETH_UDP_Flush`, at most `fuel`
iterations: `result` is first the value of `select` and, when the socket is
readable, is overwritten by the value of `recvfrom`. -/
def Flush_loop (env : Env W) (ETH_BUF_SIZE : Nat) (tv : timeval) :
    Nat → t_ethUdpChnl → World W → Option (t_ethUdpChnl × World W)
  | 0, _, _ => none
  | fuel + 1, chnl, w =>
    let sel := sys_select env (chnl.socket + 1) tv w
    let st : Int × t_ethUdpChnl × World W :=
      if sel.1.1 > 0 then
        if sel.1.2 then
          let rc := sys_recvfrom env chnl.socket chnl.buff ETH_BUF_SIZE sel.2
          let c1 := { chnl with buff := rc.2.1 }
          if rc.1 = SOCKET_ERROR then (rc.1, c1, sys_fprintf Diag.flushRecvfromFailed rc.2.2)
          else (rc.1, c1, rc.2.2)
        else (sel.1.1, chnl, sel.2)
      else (sel.1.1, chnl, sel.2)
    if st.1 > 0 then Flush_loop env ETH_BUF_SIZE tv fuel st.2.1 st.2.2
    else some (st.2.1, st.2.2)

/-- Source function `ETH_UDP_Flush`: the drain loop when the receive direction is
ready, then the `memset` of the scratch buffer in both cases. -/
def ETH_UDP_Flush (env : Env W) (ETH_BUF_SIZE : Nat) (fuel : Nat) (chnl : t_ethUdpChnl)
    (w : World W) : Option (t_ethUdpChnl × World W) :=
  let r : Option (t_ethUdpChnl × World W) :=
    if chnl.RxIsInit = 0 then some (chnl, sys_fprintf Diag.flushRxNotInit w)
    else Flush_loop env ETH_BUF_SIZE { tv_sec := 0, tv_usec := 100000 } fuel chnl w
  r.map fun cw => ({ cw.1 with buff := memset cw.1.buff 0 ETH_BUF_SIZE }, cw.2)

/-! ## TCP operations -/

/-- Source function `ETH_TCP_Open`. -/
def ETH_TCP_Open (env : Env W) (chnl : t_ethTcpChnl) (serverAdd : List Nat) (servPort : Int)
    (w : World W) : Out Nat t_ethTcpChnl W :=
  if chnl.connect ≠ 0 then
    { ret := chnl.connect, chnl := chnl, world := sys_fprintf Diag.openAlreadyOpen w }
  else
    let s := sys_socket env PF_INET SOCK_STREAM 0 w
    let c0 := { chnl with socket := s.1 }
    if c0.socket = INVALID_SOCKET then
      let c1 := { c0 with connect := K_FALSE }
      { ret := c1.connect, chnl := c1, world := sys_fprintf Diag.openSocketFailed s.2 }
    else
      let c1 := { c0 with
        ServerAddress :=
          { sin_family := AF_INET
            sin_addr := env.inet_addr serverAdd
            sin_port := env.htons (toUShort servPort) } }
      let k := sys_connect env c1.socket c1.ServerAddress s.2
      if k.1 = SOCKET_ERROR then
        { ret := c1.connect, chnl := c1, world := sys_fprintf Diag.openConnectFailed k.2 }
      else
        let c2 := { c1 with connect := K_TRUE }
        { ret := c2.connect, chnl := c2, world := k.2 }

/-- Source function `ETH_TCP_Close`. `retVal` is an `unsigned`: the result of
`shutdown` is converted to it, compared with `SOCKET_ERROR` as an unsigned,
and converted back to `int` on return. -/
def ETH_TCP_Close (env : Env W) (chnl : t_ethTcpChnl) (w : World W) :
    Out Int t_ethTcpChnl W :=
  if chnl.connect ≠ 0 then
    let r := sys_shutdown env chnl.socket 2 w
    let retVal : Nat := toUnsigned r.1
    if retVal = toUnsigned SOCKET_ERROR then
      { ret := toInt retVal, chnl := chnl, world := sys_fprintf Diag.closeShutdownFailed r.2 }
    else
      { ret := toInt retVal,
        chnl := { chnl with connect := K_FALSE, socket := INVALID_SOCKET },
        world := r.2 }
  else
    { ret := toInt 0, chnl := chnl, world := w }

/-- Source function `ETH_TCP_SendData`. -/
def ETH_TCP_SendData (env : Env W) (chnl : t_ethTcpChnl) (data : Mem) (size : Nat)
    (w : World W) : Out Int t_ethTcpChnl W :=
  if chnl.connect = 0 then
    { ret := 0, chnl := chnl, world := sys_fprintf Diag.tcpSendNotConnected w }
  else
    let r := sys_send env chnl.socket data size w
    if r.1 = SOCKET_ERROR then
      { ret := r.1, chnl := chnl, world := sys_fprintf Diag.tcpSendFailed r.2 }
    else if toUnsigned r.1 ≠ size % 4294967296 then
      { ret := r.1, chnl := chnl, world := sys_fprintf Diag.tcpSendShort r.2 }
    else
      { ret := r.1, chnl := chnl, world := r.2 }

end Ops

/-! ## Reading a trace -/

/-- Whether a call is input/output, that is anything but a diagnostic on `stderr`. -/
def Call.isIO : Call → Bool
  | Call.fprintf _ => false
  | _ => true

/-- The input/output calls of a trace, diagnostics left out. -/
def ioCalls (t : List Call) : List Call := t.filter Call.isIO

/-- Whether a call is a `send`. -/
def Call.isSend : Call → Bool
  | Call.send _ _ _ => true
  | _ => false

/-- Whether a call is a `socket`. -/
def Call.isSocket : Call → Bool
  | Call.socket _ _ _ _ => true
  | _ => false

/-! ## Assumptions on the socket API -/

/-- With the single socket in the read set, a positive count from `select`
means that this socket is flagged readable. -/
def SelectContract {W : Type} (env : Env W) : Prop :=
  ∀ nfds tv os, 0 < (env.select nfds tv os).1.1 → (env.select nfds tv os).1.2 = true

/-- A `recvfrom` that does not fail returns a length that exceeds neither the
buffer length it was given nor the bytes it delivers. -/
def RecvfromContract {W : Type} (env : Env W) : Prop :=
  ∀ s len os, 0 ≤ (env.recvfrom s len os).1.1 →
    ((env.recvfrom s len os).1.1).toNat ≤ (env.recvfrom s len os).1.2.length ∧
    ((env.recvfrom s len os).1.1).toNat ≤ len

/-! ## Concrete environments and descriptors -/

/-- An environment whose state is the queue of pending datagrams of the socket:
`select` reports the socket readable exactly while the queue is non-empty,
`recvfrom` removes the head datagram and returns its length. Every other call
succeeds; the timer has elapsed at its first check. -/
def queueEnv : Env (List (List Nat)) where
  socket := fun _ _ _ q => (3, q)
  setsockopt := fun _ _ _ _ q => (0, q)
  bind := fun _ _ q => (0, q)
  sendto := fun _ data _ q => ((data.length : Int), q)
  select := fun _ _ q => ((if q = [] then 0 else 1, !q.isEmpty), q)
  recvfrom := fun _ _ q =>
    match q with
    | [] => ((SOCKET_ERROR, []), [])
    | d :: rest => (((d.length : Int), d), rest)
  connect := fun _ _ q => (0, q)
  shutdown := fun _ _ q => (0, q)
  send := fun _ data q => ((data.length : Int), q)
  UTIL_SetTimeout := fun timeout q => (timeout, q)
  UTIL_TimedOut := fun _ q => (true, q)
  inet_addr := fun _ => 0
  htons := fun x => x
  htonl := fun x => x

/-- An environment driven by a script: every call that returns a status takes
the next number of the script as its result (`SOCKET_ERROR` once the script is
used up); a `recvfrom` returning `n >= 0` delivers `n` bytes of value `7`; the
timer has elapsed at its first check. -/
def scriptEnv : Env (List Int) where
  socket := fun _ _ _ q => (q.headD SOCKET_ERROR, q.tail)
  setsockopt := fun _ _ _ _ q => (q.headD SOCKET_ERROR, q.tail)
  bind := fun _ _ q => (q.headD SOCKET_ERROR, q.tail)
  sendto := fun _ _ _ q => (q.headD SOCKET_ERROR, q.tail)
  select := fun _ _ q => ((q.headD SOCKET_ERROR, decide (0 < q.headD SOCKET_ERROR)), q.tail)
  recvfrom := fun _ len q =>
    ((min (q.headD SOCKET_ERROR) len, List.replicate (min (q.headD SOCKET_ERROR) len).toNat 7),
      q.tail)
  connect := fun _ _ q => (q.headD SOCKET_ERROR, q.tail)
  shutdown := fun _ _ q => (q.headD SOCKET_ERROR, q.tail)
  send := fun _ _ q => (q.headD SOCKET_ERROR, q.tail)
  UTIL_SetTimeout := fun timeout q => (timeout, q)
  UTIL_TimedOut := fun _ q => (true, q)
  inet_addr := fun _ => 0
  htons := fun x => x
  htonl := fun x => x

/-- A UDP descriptor of zeroed static storage. -/
def udpZero : t_ethUdpChnl :=
  { TxIsInit := 0, RxIsInit := 0, socket := 0,
    ServerAddress := { sin_family := 0, sin_addr := 0, sin_port := 0 },
    ClientAddress := { sin_family := 0, sin_addr := 0, sin_port := 0 },
    buff := fun _ => 0 }

/-- A TCP descriptor of zeroed static storage. -/
def tcpZero : t_ethTcpChnl :=
  { connect := 0, socket := 0,
    ServerAddress := { sin_family := 0, sin_addr := 0, sin_port := 0 } }

/-- A UDP descriptor whose receive direction is ready on socket `3`. -/
def udpRxReady : t_ethUdpChnl :=
  { udpZero with RxIsInit := K_TRUE, socket := 3 }

/-- The world at start: the given operating-system state and an empty trace. -/
def World.start {W : Type} (os : W) : World W := { os := os, trace := [] }

/-- A UDP pool whose slots hold used descriptors (both directions ready, socket
`5`) before the cursor was put back to 0. -/
def udpUsedPool : UdpPool :=
  { ListUdpChannels := fun _ => { udpZero with TxIsInit := 1, RxIsInit := 1, socket := 5 }
    indexUdp := 0 }

/-- A TCP pool whose slots hold used descriptors (connected, socket `5`)
before the cursor was put back to 0. -/
def tcpUsedPool : TcpPool :=
  { ListTcpChannels := fun _ => { tcpZero with connect := 1, socket := 5 }
    indexTcp := 0 }

/-! ## The receive loops as traces -/

/-- Whether a call is a `select` or a `recvfrom`. -/
def Call.isSelectOrRecvfrom : Call → Bool
  | Call.select _ _ _ _ => true
  | Call.recvfrom _ _ _ _ => true
  | _ => false

/-- Whether a call is a `select` or a `recvfrom` that failed, that is returned
a negative value. -/
def Call.isFailedPoll : Call → Bool
  | Call.select _ _ ret _ => decide (ret < 0)
  | Call.recvfrom _ _ ret _ => decide (ret < 0)
  | _ => false

/-- Whether a call is a failed `select` or a `recvfrom` with a non-zero result. -/
def Call.endsPolling : Call → Bool
  | Call.select _ _ ret _ => decide (ret < 0)
  | Call.recvfrom _ _ ret _ => decide (ret ≠ 0)
  | _ => false

/-- Whether no `select` or `recvfrom` comes after a failed `select` or a
`recvfrom` with a non-zero result in a list of calls. -/
def quietAfterEnd : List Call → Bool
  | [] => true
  | c :: rest =>
    (if c.endsPolling then rest.all (fun d => !d.isSelectOrRecvfrom) else true)
      && quietAfterEnd rest

/-- The common shape of the loops of `ETH_UDP_recvFrom` and `ETH_UDP_recvData`:
`do body while (result == 0 && !UTIL_TimedOut(timer))`, at most `fuel`
iterations. -/
def pollLoop {W : Type} (env : Env W) (timer : Nat)
    (body : t_ethUdpChnl → Mem → World W → RecvState W) :
    Nat → t_ethUdpChnl → Mem → World W → Option (RecvState W)
  | 0, _, _, _ => none
  | fuel + 1, chnl, buff, w =>
    let st := body chnl buff w
    if st.result = 0 then
      let t := sys_TimedOut env timer st.world
      if t.1 then some { st with world := t.2 }
      else pollLoop env timer body fuel st.chnl st.buff t.2
    else some st

/-- What is shown of a receive loop that ended with `result = r` after the
calls `new`: a zero result ends on a `UTIL_TimedOut` that answered true, a
positive result ends on the `recvfrom` that returned it, the result is negative
exactly when a `select` or `recvfrom` failed, and nothing is polled after the
call that ends the loop. -/
def PollDone (r : Int) (new : List Call) : Prop :=
  (r = 0 → ∃ t timer, new = t ++ [Call.UTIL_TimedOut timer true]) ∧
  (0 < r → ∃ t s len bytes, new = t ++ [Call.recvfrom s len r bytes]) ∧
  (r < 0 ↔ new.any Call.isFailedPoll = true) ∧
  quietAfterEnd new = true

/-- What is shown of a loop body: it only appends calls to the trace; when its
result is zero none of them failed or ends the polling; when its result is not
zero they satisfy `PollDone`. -/
def BodyOk {W : Type} (body : t_ethUdpChnl → Mem → World W → RecvState W) : Prop :=
  ∀ chnl buff w, ∃ ev, (body chnl buff w).world.trace = w.trace ++ ev ∧
    ((body chnl buff w).result = 0 →
      ∀ c ∈ ev, c.endsPolling = false ∧ c.isFailedPoll = false) ∧
    ((body chnl buff w).result ≠ 0 → PollDone (body chnl buff w).result ev)

/-- An environment driven by a script like `scriptEnv`, in which `UTIL_TimedOut`
also takes its answer from the script: elapsed unless the next number is 0. -/
def timedScriptEnv : Env (List Int) :=
  { scriptEnv with UTIL_TimedOut := fun _ q => (decide (q.headD 1 ≠ 0), q.tail) }

/-! ## Theorems -/

/-- The pointers returned by successive calls from any pool: call `j` returns
slot `indexUdp + j` while that is below the capacity, and `NULL` afterwards. -/
theorem udpAcquire_ptrs (n : Nat) (p : UdpPool) :
    (udpAcquire n p).1 = (List.range n).map (fun j =>
      if h : p.indexUdp + j < ETH_UDP_CHNL_MAX then some ⟨p.indexUdp + j, h⟩ else none) := by
  induction n generalizing p with
  | zero => rfl
  | succ n ih =>
    rw [List.range_succ_eq_map, List.map_cons, List.map_map]
    show (ETH_UDP_GetInstance p).ptr :: (udpAcquire n (ETH_UDP_GetInstance p).pool).1 = _
    rw [ih]
    by_cases h : p.indexUdp < ETH_UDP_CHNL_MAX
    · have e1 : (ETH_UDP_GetInstance p).ptr = some ⟨p.indexUdp, h⟩ := by
        simp [ETH_UDP_GetInstance, h]
      have e2 : (ETH_UDP_GetInstance p).pool.indexUdp = p.indexUdp + 1 := by
        simp [ETH_UDP_GetInstance, h]
      rw [e1, e2]
      congr 1
      · simp [h]
      · apply List.map_congr_left
        intro j _
        simp only [Function.comp, Nat.succ_eq_add_one]
        have e3 : p.indexUdp + 1 + j = p.indexUdp + (j + 1) := by omega
        simp only [e3]
    · have e1 : (ETH_UDP_GetInstance p).ptr = none := by
        simp [ETH_UDP_GetInstance, h]
      have e2 : (ETH_UDP_GetInstance p).pool = p := by
        simp [ETH_UDP_GetInstance, h]
      rw [e1, e2]
      congr 1
      · simp [h]
      · apply List.map_congr_left
        intro j _
        have h1 : ¬ p.indexUdp + j < ETH_UDP_CHNL_MAX := by omega
        have h2 : ¬ p.indexUdp + (j + 1) < ETH_UDP_CHNL_MAX := by omega
        simp [h1, h2]

/-- The pointers returned by successive calls from any pool: call `j` returns
slot `indexTcp + j` while that is below the capacity, and `NULL` afterwards. -/
theorem tcpAcquire_ptrs (n : Nat) (p : TcpPool) :
    (tcpAcquire n p).1 = (List.range n).map (fun j =>
      if h : p.indexTcp + j < ETH_TCP_CHNL_MAX then some ⟨p.indexTcp + j, h⟩ else none) := by
  induction n generalizing p with
  | zero => rfl
  | succ n ih =>
    rw [List.range_succ_eq_map, List.map_cons, List.map_map]
    show (ETH_TCP_GetInstance p).ptr :: (tcpAcquire n (ETH_TCP_GetInstance p).pool).1 = _
    rw [ih]
    by_cases h : p.indexTcp < ETH_TCP_CHNL_MAX
    · have e1 : (ETH_TCP_GetInstance p).ptr = some ⟨p.indexTcp, h⟩ := by
        simp [ETH_TCP_GetInstance, h]
      have e2 : (ETH_TCP_GetInstance p).pool.indexTcp = p.indexTcp + 1 := by
        simp [ETH_TCP_GetInstance, h]
      rw [e1, e2]
      congr 1
      · simp [h]
      · apply List.map_congr_left
        intro j _
        simp only [Function.comp, Nat.succ_eq_add_one]
        have e3 : p.indexTcp + 1 + j = p.indexTcp + (j + 1) := by omega
        simp only [e3]
    · have e1 : (ETH_TCP_GetInstance p).ptr = none := by
        simp [ETH_TCP_GetInstance, h]
      have e2 : (ETH_TCP_GetInstance p).pool = p := by
        simp [ETH_TCP_GetInstance, h]
      rw [e1, e2]
      congr 1
      · simp [h]
      · apply List.map_congr_left
        intro j _
        have h1 : ¬ p.indexTcp + j < ETH_TCP_CHNL_MAX := by omega
        have h2 : ¬ p.indexTcp + (j + 1) < ETH_TCP_CHNL_MAX := by omega
        simp [h1, h2]

/-- A list of slots `some 0, some 1, ..` cut off at a capacity: within the
capacity its entries are non-`NULL` and pairwise distinct. -/
theorem slots_distinct (cap N : Nat) (hN : N ≤ cap) :
    let rs := (List.range N).map (fun j =>
      if h : 0 + j < cap then some (⟨0 + j, h⟩ : Fin cap) else none)
    rs.length = N ∧ (∀ r ∈ rs, r ≠ none) ∧ rs.Nodup := by
  refine ⟨by simp, ?_, ?_⟩
  · intro r hr
    simp only [List.mem_map, List.mem_range] at hr
    obtain ⟨j, hj, rfl⟩ := hr
    have : j < cap := by omega
    simp [this]
  · apply List.Nodup.map_on _ (List.nodup_range N)
    intro x hx y hy hxy
    have h1 : 0 + x < cap := by have := List.mem_range.mp hx; omega
    have h2 : 0 + y < cap := by have := List.mem_range.mp hy; omega
    simp only [h1, h2, dif_pos, Option.some.injEq, Fin.mk.injEq] at hxy
    omega

/-- Past the capacity the list of returned pointers holds `NULL`. -/
theorem slots_exhausted (cap n k : Nat) (hk : cap ≤ k) (hn : k < n) :
    ((List.range n).map (fun j =>
      if h : 0 + j < cap then some (⟨0 + j, h⟩ : Fin cap) else none))[k]? = some none := by
  have h1 : ¬ k < cap := by omega
  have h2 : cap ≤ k := hk
  simp [List.getElem?_map, List.getElem?_range hn, h2]

/-- C1: from a fresh pool (cursor 0, any slot contents), for the UDP pool of
capacity 7 and the TCP pool of capacity 10: for every `N` up to the capacity
the first `N` calls of `GetInstance` all return a non-`NULL` pointer and the
`N` pointers are pairwise distinct slots of the pool array; in any longer run
of calls, call number `capacity + 1` and every later call returns `NULL`. -/
theorem GetInstance_capacity (u : Fin ETH_UDP_CHNL_MAX → t_ethUdpChnl)
    (t : Fin ETH_TCP_CHNL_MAX → t_ethTcpChnl) :
    (∀ N, N ≤ ETH_UDP_CHNL_MAX →
      ((udpAcquire N { ListUdpChannels := u, indexUdp := 0 }).1.length = N ∧
       (∀ r ∈ (udpAcquire N { ListUdpChannels := u, indexUdp := 0 }).1, r ≠ none) ∧
       (udpAcquire N { ListUdpChannels := u, indexUdp := 0 }).1.Nodup)) ∧
    (∀ n k, ETH_UDP_CHNL_MAX ≤ k → k < n →
      (udpAcquire n { ListUdpChannels := u, indexUdp := 0 }).1[k]? = some none) ∧
    (∀ N, N ≤ ETH_TCP_CHNL_MAX →
      ((tcpAcquire N { ListTcpChannels := t, indexTcp := 0 }).1.length = N ∧
       (∀ r ∈ (tcpAcquire N { ListTcpChannels := t, indexTcp := 0 }).1, r ≠ none) ∧
       (tcpAcquire N { ListTcpChannels := t, indexTcp := 0 }).1.Nodup)) ∧
    (∀ n k, ETH_TCP_CHNL_MAX ≤ k → k < n →
      (tcpAcquire n { ListTcpChannels := t, indexTcp := 0 }).1[k]? = some none) := by
  refine ⟨?_, ?_, ?_, ?_⟩
  · intro N hN
    rw [udpAcquire_ptrs]
    exact slots_distinct ETH_UDP_CHNL_MAX N hN
  · intro n k hk hn
    rw [udpAcquire_ptrs]
    exact slots_exhausted ETH_UDP_CHNL_MAX n k hk hn
  · intro N hN
    rw [tcpAcquire_ptrs]
    exact slots_distinct ETH_TCP_CHNL_MAX N hN
  · intro n k hk hn
    rw [tcpAcquire_ptrs]
    exact slots_exhausted ETH_TCP_CHNL_MAX n k hk hn

/-- Witness for C1: filling both zeroed pools to capacity gives 7 and 10
distinct non-`NULL` slots, and the calls after that return `NULL`. -/
theorem GetInstance_capacity_witness :
    ((udpAcquire 7 { ListUdpChannels := fun _ => udpZero, indexUdp := 0 }).1.length = 7 ∧
     (∀ r ∈ (udpAcquire 7 { ListUdpChannels := fun _ => udpZero, indexUdp := 0 }).1, r ≠ none) ∧
     (udpAcquire 7 { ListUdpChannels := fun _ => udpZero, indexUdp := 0 }).1.Nodup) ∧
    (udpAcquire 9 { ListUdpChannels := fun _ => udpZero, indexUdp := 0 }).1[7]? = some none ∧
    ((tcpAcquire 10 { ListTcpChannels := fun _ => tcpZero, indexTcp := 0 }).1.length = 10 ∧
     (∀ r ∈ (tcpAcquire 10 { ListTcpChannels := fun _ => tcpZero, indexTcp := 0 }).1, r ≠ none) ∧
     (tcpAcquire 10 { ListTcpChannels := fun _ => tcpZero, indexTcp := 0 }).1.Nodup) ∧
    (tcpAcquire 12 { ListTcpChannels := fun _ => tcpZero, indexTcp := 0 }).1[11]? = some none :=
  ⟨(GetInstance_capacity (fun _ => udpZero) (fun _ => tcpZero)).1 7 (by decide),
   (GetInstance_capacity (fun _ => udpZero) (fun _ => tcpZero)).2.1 9 7 (by decide) (by decide),
   (GetInstance_capacity (fun _ => udpZero) (fun _ => tcpZero)).2.2.1 10 (by decide),
   (GetInstance_capacity (fun _ => udpZero) (fun _ => tcpZero)).2.2.2 12 11 (by decide)
     (by decide)⟩

/-- C2: a non-`NULL` descriptor returned by `ETH_UDP_GetInstance` has
`TxIsInit = K_FALSE`, `RxIsInit = K_FALSE` and `socket = INVALID_SOCKET`, and one
returned by `ETH_TCP_GetInstance` has `connect = K_FALSE` and
`socket = INVALID_SOCKET`, whatever the pool held before. -/
theorem GetInstance_defaults (p : UdpPool) (q : TcpPool) :
    (∀ i, (ETH_UDP_GetInstance p).ptr = some i →
      ((ETH_UDP_GetInstance p).pool.ListUdpChannels i).TxIsInit = K_FALSE ∧
      ((ETH_UDP_GetInstance p).pool.ListUdpChannels i).RxIsInit = K_FALSE ∧
      ((ETH_UDP_GetInstance p).pool.ListUdpChannels i).socket = INVALID_SOCKET) ∧
    (∀ i, (ETH_TCP_GetInstance q).ptr = some i →
      ((ETH_TCP_GetInstance q).pool.ListTcpChannels i).connect = K_FALSE ∧
      ((ETH_TCP_GetInstance q).pool.ListTcpChannels i).socket = INVALID_SOCKET) := by
  constructor
  · intro i hi
    unfold ETH_UDP_GetInstance at hi ⊢
    by_cases h : p.indexUdp < ETH_UDP_CHNL_MAX
    · simp only [h, dif_pos, Option.some.injEq] at hi ⊢
      subst hi
      simp [ETH_UDP_SetDefaultVal]
    · simp [h] at hi
  · intro i hi
    unfold ETH_TCP_GetInstance at hi ⊢
    by_cases h : q.indexTcp < ETH_TCP_CHNL_MAX
    · simp only [h, dif_pos, Option.some.injEq] at hi ⊢
      subst hi
      simp [ETH_TCP_SetDefaultVal]
    · simp [h] at hi

/-- Witness for C2: the first descriptor handed out of pools full of used
descriptors is in the default state. -/
theorem GetInstance_defaults_witness :
    ((ETH_UDP_GetInstance udpUsedPool).ptr = some ⟨0, by decide⟩ ∧
      ((ETH_UDP_GetInstance udpUsedPool).pool.ListUdpChannels ⟨0, by decide⟩).TxIsInit
        = K_FALSE ∧
      ((ETH_UDP_GetInstance udpUsedPool).pool.ListUdpChannels ⟨0, by decide⟩).RxIsInit
        = K_FALSE ∧
      ((ETH_UDP_GetInstance udpUsedPool).pool.ListUdpChannels ⟨0, by decide⟩).socket
        = INVALID_SOCKET) ∧
    ((ETH_TCP_GetInstance tcpUsedPool).ptr = some ⟨0, by decide⟩ ∧
      ((ETH_TCP_GetInstance tcpUsedPool).pool.ListTcpChannels ⟨0, by decide⟩).connect
        = K_FALSE ∧
      ((ETH_TCP_GetInstance tcpUsedPool).pool.ListTcpChannels ⟨0, by decide⟩).socket
        = INVALID_SOCKET) :=
  ⟨⟨rfl, (GetInstance_defaults udpUsedPool tcpUsedPool).1 ⟨0, by decide⟩ rfl⟩,
   ⟨rfl, (GetInstance_defaults udpUsedPool tcpUsedPool).2 ⟨0, by decide⟩ rfl⟩⟩

/-- Whatever the descriptor holds, `ETH_UDP_SendData` sets `TxIsInit` to `K_TRUE`,
calls `sendto` once and returns its result: the guard never rejects. -/
theorem ETH_UDP_SendData_always_sends {W : Type} (env : Env W) (chnl : t_ethUdpChnl)
    (data : Mem) (size : Nat) (w : World W) :
    (ETH_UDP_SendData env chnl data size w).world.trace =
      w.trace ++ [Call.sendto chnl.socket (data.read size) chnl.ServerAddress
        (env.sendto chnl.socket (data.read size) chnl.ServerAddress w.os).1] ∧
    (ETH_UDP_SendData env chnl data size w).ret =
      (env.sendto chnl.socket (data.read size) chnl.ServerAddress w.os).1 ∧
    (ETH_UDP_SendData env chnl data size w).chnl.TxIsInit = K_TRUE := by
  simp [ETH_UDP_SendData, sys_sendto, K_TRUE]

/-- C3 (evaluation at the failing input): on a descriptor fresh from the factory
(`TxIsInit = K_FALSE`, invalid socket) `ETH_UDP_SendData` of one byte calls
`sendto` on the invalid socket, returns its result `SOCKET_ERROR` and not 0,
writes no diagnostic and leaves `TxIsInit = K_TRUE`. -/
theorem ETH_UDP_SendData_unready_sends :
    (ETH_UDP_SetDefaultVal udpZero).TxIsInit = K_FALSE ∧
    (ETH_UDP_SendData scriptEnv (ETH_UDP_SetDefaultVal udpZero) (fun _ => 65) 1
        (World.start [])).world.trace =
      [Call.sendto (-1) [65] { sin_family := 0, sin_addr := 0, sin_port := 0 } (-1)] ∧
    (ETH_UDP_SendData scriptEnv (ETH_UDP_SetDefaultVal udpZero) (fun _ => 65) 1
        (World.start [])).ret = -1 ∧
    (ETH_UDP_SendData scriptEnv (ETH_UDP_SetDefaultVal udpZero) (fun _ => 65) 1
        (World.start [])).chnl.TxIsInit = K_TRUE := by
  refine ⟨rfl, ?_, ?_, ?_⟩ <;> decide

/-- C4: when the receive direction is not ready or the timeout is 0,
`ETH_UDP_recvFrom` and `ETH_UDP_recvData` return 0 (with any fuel, no loop is
entered), the trace grows by one diagnostic only (no `UTIL_SetTimeout`, `select`
or `recvfrom`), and the descriptor, the caller's buffer and the
operating-system state are unchanged. -/
theorem recv_rejects_unready {W : Type} (env : Env W) (ETH_BUF_SIZE fuel : Nat)
    (chnl : t_ethUdpChnl) (buff : Mem) (size : Int) (timeout : Nat) (w : World W)
    (h : chnl.RxIsInit = K_FALSE ∨ timeout = 0) :
    (∃ st d, ETH_UDP_recvFrom env ETH_BUF_SIZE fuel chnl buff size timeout w = some st ∧
      st.result = 0 ∧ st.chnl = chnl ∧ st.buff = buff ∧ st.world.os = w.os ∧
      st.world.trace = w.trace ++ [Call.fprintf d] ∧
      ioCalls st.world.trace = ioCalls w.trace) ∧
    (∃ st d, ETH_UDP_recvData env fuel chnl buff size timeout w = some st ∧
      st.result = 0 ∧ st.chnl = chnl ∧ st.buff = buff ∧ st.world.os = w.os ∧
      st.world.trace = w.trace ++ [Call.fprintf d] ∧
      ioCalls st.world.trace = ioCalls w.trace) := by
  by_cases h0 : chnl.RxIsInit = 0
  · constructor
    · exact ⟨{ result := 0, chnl := chnl, buff := buff,
               world := sys_fprintf Diag.recvFromRxNotInit w }, Diag.recvFromRxNotInit,
        by simp [ETH_UDP_recvFrom, h0], rfl, rfl, rfl, rfl, rfl,
        by simp [sys_fprintf, ioCalls, Call.isIO]⟩
    · exact ⟨{ result := 0, chnl := chnl, buff := buff,
               world := sys_fprintf Diag.recvDataRxNotInit w }, Diag.recvDataRxNotInit,
        by simp [ETH_UDP_recvData, h0], rfl, rfl, rfl, rfl, rfl,
        by simp [sys_fprintf, ioCalls, Call.isIO]⟩
  · have ht : timeout = 0 := by
      rcases h with h | h
      · exact absurd h h0
      · exact h
    constructor
    · exact ⟨{ result := 0, chnl := chnl, buff := buff,
               world := sys_fprintf Diag.recvFromBadTimeout w }, Diag.recvFromBadTimeout,
        by simp [ETH_UDP_recvFrom, h0, ht], rfl, rfl, rfl, rfl, rfl,
        by simp [sys_fprintf, ioCalls, Call.isIO]⟩
    · exact ⟨{ result := 0, chnl := chnl, buff := buff,
               world := sys_fprintf Diag.recvDataBadTimeout w }, Diag.recvDataBadTimeout,
        by simp [ETH_UDP_recvData, h0, ht], rfl, rfl, rfl, rfl, rfl,
        by simp [sys_fprintf, ioCalls, Call.isIO]⟩

/-- Witness for C4: a descriptor of zeroed storage (receive direction not
ready) with a datagram pending and a timeout of 100 ms. -/
theorem recv_rejects_unready_witness :
    (udpZero.RxIsInit = K_FALSE ∨ 100 = 0) ∧
    (∃ st d, ETH_UDP_recvFrom queueEnv 1500 0 udpZero (fun _ => 9) 16 100
        (World.start [[1, 2, 3]]) = some st ∧
      st.result = 0 ∧ st.chnl = udpZero ∧ st.buff = (fun _ => 9) ∧
      st.world.os = (World.start [[1, 2, 3]]).os ∧
      st.world.trace = (World.start [[1, 2, 3]]).trace ++ [Call.fprintf d] ∧
      ioCalls st.world.trace = ioCalls (World.start [[1, 2, 3]]).trace) ∧
    (∃ st d, ETH_UDP_recvData queueEnv 0 udpZero (fun _ => 9) 16 100
        (World.start [[1, 2, 3]]) = some st ∧
      st.result = 0 ∧ st.chnl = udpZero ∧ st.buff = (fun _ => 9) ∧
      st.world.os = (World.start [[1, 2, 3]]).os ∧
      st.world.trace = (World.start [[1, 2, 3]]).trace ++ [Call.fprintf d] ∧
      ioCalls st.world.trace = ioCalls (World.start [[1, 2, 3]]).trace) :=
  ⟨Or.inl rfl,
    recv_rejects_unready queueEnv 1500 0 udpZero (fun _ => 9) 16 100
      (World.start [[1, 2, 3]]) (Or.inl rfl)⟩

/-- C5 (evaluation at the failing input): with a zero-length datagram queued
ahead of a one-byte datagram, `ETH_UDP_Flush` on a receive-ready descriptor
returns after one `select` and one `recvfrom` (which returns 0 and ends the
`while (result > 0)` loop) and leaves the one-byte datagram queued; the
`ETH_UDP_recvData` that follows returns 1 and delivers that byte. -/
theorem ETH_UDP_Flush_stops_at_empty_datagram :
    udpRxReady.RxIsInit = K_TRUE ∧
    (ETH_UDP_Flush queueEnv 1500 8 udpRxReady (World.start [[], [65]])).map
        (fun cw => (cw.2.os, cw.2.trace)) =
      some ([[65]],
        [Call.select 4 { tv_sec := 0, tv_usec := 100000 } 1 true,
         Call.recvfrom 3 1500 0 []]) ∧
    (ETH_UDP_recvData queueEnv 8 udpRxReady (fun _ => 0) 16 10 (World.start [[65]])).map
        (fun st => (st.result, st.buff 0, st.world.os)) = some (1, 65, []) := by
  refine ⟨rfl, ?_, ?_⟩ <;> decide

/-- Copying no byte leaves the destination as it was. -/
theorem memcpy_zero (dst src : Mem) : memcpy dst src 0 = dst := by
  funext i
  simp [memcpy]

/-- One iteration of the loop of `ETH_UDP_recvFrom`, under the assumptions on
`select` and `recvfrom`: a result that is not positive leaves the caller's
buffer unchanged; a positive result is the value of a `recvfrom` that ends the
trace, and the caller's buffer holds the first `min(result, maxSize)` bytes of
what that call delivered, the rest being unchanged. -/
theorem recvFrom_body_buffer {W : Type} (env : Env W) (hsel : SelectContract env)
    (hrcv : RecvfromContract env) (ETH_BUF_SIZE : Nat) (maxSize : Int) (tv : timeval)
    (chnl : t_ethUdpChnl) (buff : Mem) (w : World W) :
    ((recvFrom_body env ETH_BUF_SIZE maxSize tv chnl buff w).result ≤ 0 →
      (recvFrom_body env ETH_BUF_SIZE maxSize tv chnl buff w).buff = buff) ∧
    (0 < (recvFrom_body env ETH_BUF_SIZE maxSize tv chnl buff w).result →
      ∃ t s len dgram,
        (recvFrom_body env ETH_BUF_SIZE maxSize tv chnl buff w).world.trace =
          t ++ [Call.recvfrom s len
            (recvFrom_body env ETH_BUF_SIZE maxSize tv chnl buff w).result dgram] ∧
        (∀ i, i < (min (recvFrom_body env ETH_BUF_SIZE maxSize tv chnl buff w).result
              maxSize).toNat →
          dgram[i]? = some ((recvFrom_body env ETH_BUF_SIZE maxSize tv chnl buff w).buff i)) ∧
        (∀ i, (min (recvFrom_body env ETH_BUF_SIZE maxSize tv chnl buff w).result
              maxSize).toNat ≤ i →
          (recvFrom_body env ETH_BUF_SIZE maxSize tv chnl buff w).buff i = buff i)) := by
  unfold recvFrom_body
  simp only [sys_select, sys_recvfrom, sys_fprintf]
  by_cases h1 : (env.select (chnl.socket + 1) tv w.os).1.1 = SOCKET_ERROR
  · simp only [h1, if_true]
    refine ⟨fun _ => trivial, fun h => ?_⟩
    simp [SOCKET_ERROR] at h
  · simp only [h1, if_false]
    by_cases h2 : (env.select (chnl.socket + 1) tv w.os).1.1 > 0
    · have h3 := hsel _ _ _ h2
      simp only [h2, h3, if_true]
      by_cases h4 : (env.recvfrom chnl.socket ETH_BUF_SIZE
          (env.select (chnl.socket + 1) tv w.os).2).1.1 < 0
      · simp only [h4, if_true]
        refine ⟨fun _ => trivial, fun h => ?_⟩
        omega
      · simp only [h4, if_false]
        have h5 := hrcv chnl.socket ETH_BUF_SIZE (env.select (chnl.socket + 1) tv w.os).2
          (by omega)
        constructor
        · intro h6
          have h7 : (min (env.recvfrom chnl.socket ETH_BUF_SIZE
              (env.select (chnl.socket + 1) tv w.os).2).1.1 maxSize).toNat = 0 := by
            have := min_le_left (env.recvfrom chnl.socket ETH_BUF_SIZE
              (env.select (chnl.socket + 1) tv w.os).2).1.1 maxSize
            omega
          rw [h7, memcpy_zero]
        · intro _
          refine ⟨_, _, _, _, rfl, ?_, ?_⟩
          · intro i hi
            have h8 : (min (env.recvfrom chnl.socket ETH_BUF_SIZE
                (env.select (chnl.socket + 1) tv w.os).2).1.1 maxSize).toNat ≤
                ((env.recvfrom chnl.socket ETH_BUF_SIZE
                (env.select (chnl.socket + 1) tv w.os).2).1.1).toNat :=
              Int.toNat_le_toNat (min_le_left _ _)
            have h9 : i < (env.recvfrom chnl.socket ETH_BUF_SIZE
                (env.select (chnl.socket + 1) tv w.os).2).1.2.length := by omega
            have h10 : i < ETH_BUF_SIZE := by omega
            simp only [memcpy, hi, if_true, Mem.store, List.length_take]
            have h11 : i < min ETH_BUF_SIZE (env.recvfrom chnl.socket ETH_BUF_SIZE
                (env.select (chnl.socket + 1) tv w.os).2).1.2.length := by
              simp only [lt_min_iff]; exact ⟨h10, h9⟩
            simp only [h11, if_true]
            rw [List.getD_eq_getElem?_getD, List.getElem?_take_of_lt h10,
              List.getElem?_eq_getElem h9]
            rfl
          · intro i hi
            have : ¬ i < (min (env.recvfrom chnl.socket ETH_BUF_SIZE
                (env.select (chnl.socket + 1) tv w.os).2).1.1 maxSize).toNat := by omega
            simp only [memcpy, this, if_false]
    · simp only [h2, if_false]
      refine ⟨fun _ => trivial, fun h => ?_⟩
      exact h.elim

/-- The loop of `ETH_UDP_recvFrom`, under the assumptions on `select` and
`recvfrom`: what `recvFrom_body_buffer` says of one iteration holds of the
whole loop when it ends. -/
theorem recvFrom_loop_buffer {W : Type} (env : Env W) (hsel : SelectContract env)
    (hrcv : RecvfromContract env) (ETH_BUF_SIZE : Nat) (maxSize : Int) (tv : timeval)
    (timer : Nat) (fuel : Nat) (chnl : t_ethUdpChnl) (buff : Mem) (w : World W)
    (st : RecvState W)
    (hret : recvFrom_loop env ETH_BUF_SIZE maxSize tv timer fuel chnl buff w = some st) :
    (st.result ≤ 0 → st.buff = buff) ∧
    (0 < st.result →
      ∃ t s len dgram,
        st.world.trace = t ++ [Call.recvfrom s len st.result dgram] ∧
        (∀ i, i < (min st.result maxSize).toNat → dgram[i]? = some (st.buff i)) ∧
        (∀ i, (min st.result maxSize).toNat ≤ i → st.buff i = buff i)) := by
  induction fuel generalizing chnl buff w with
  | zero => simp [recvFrom_loop] at hret
  | succ fuel ih =>
    have hb := recvFrom_body_buffer env hsel hrcv ETH_BUF_SIZE maxSize tv chnl buff w
    unfold recvFrom_loop at hret
    simp only at hret
    by_cases h0 : (recvFrom_body env ETH_BUF_SIZE maxSize tv chnl buff w).result = 0
    · have hbuf : (recvFrom_body env ETH_BUF_SIZE maxSize tv chnl buff w).buff = buff :=
        hb.1 (by omega)
      simp only [h0, if_true] at hret
      by_cases ht : (sys_TimedOut env timer
          (recvFrom_body env ETH_BUF_SIZE maxSize tv chnl buff w).world).1 = true
      · simp only [ht, if_true, Option.some.injEq] at hret
        subst hret
        refine ⟨fun _ => hbuf, fun h => ?_⟩
        simp only [h0] at h
        omega
      · simp only [ht, if_false] at hret
        have := ih _ _ _ hret
        rw [hbuf] at this
        exact this
    · simp only [h0, if_false, Option.some.injEq] at hret
      subst hret
      exact hb

/-- C6: for a receive-ready descriptor, `timeout > 0` and `maxSize >= 0`, with
`select` flagging the socket whenever it returns a positive count and
`recvfrom` returning at most the buffer length and at most what it delivers:
when `ETH_UDP_recvFrom` returns `r > 0`, the trace ends with the `recvfrom`
that returned `r`, the first `min(r, maxSize)` bytes of the caller's buffer are
the first `min(r, maxSize)` bytes of the datagram that call delivered, and
every byte of the caller's buffer from index `min(r, maxSize)` on is unchanged;
when it returns `r <= 0` the caller's buffer is unchanged. -/
theorem ETH_UDP_recvFrom_buffer {W : Type} (env : Env W) (hsel : SelectContract env)
    (hrcv : RecvfromContract env) (ETH_BUF_SIZE fuel : Nat) (chnl : t_ethUdpChnl)
    (buff : Mem) (maxSize : Int) (timeout : Nat) (w : World W) (st : RecvState W)
    (hrx : chnl.RxIsInit ≠ K_FALSE) (ht : 0 < timeout) (_hm : 0 ≤ maxSize)
    (hret : ETH_UDP_recvFrom env ETH_BUF_SIZE fuel chnl buff maxSize timeout w = some st) :
    (0 < st.result →
      ∃ t s len dgram,
        st.world.trace = t ++ [Call.recvfrom s len st.result dgram] ∧
        (∀ i, i < (min st.result maxSize).toNat → dgram[i]? = some (st.buff i)) ∧
        (∀ i, (min st.result maxSize).toNat ≤ i → st.buff i = buff i)) ∧
    (st.result ≤ 0 → st.buff = buff) := by
  unfold ETH_UDP_recvFrom at hret
  have h1 : ¬ chnl.RxIsInit = 0 := hrx
  have h2 : ¬ timeout = 0 := by omega
  simp only [h1, h2, if_false] at hret
  have := recvFrom_loop_buffer env hsel hrcv ETH_BUF_SIZE maxSize _ _ fuel chnl buff _ st hret
  exact ⟨this.2, this.1⟩

/-- The scripted environment satisfies the assumption on `select`. -/
theorem scriptEnv_select : SelectContract scriptEnv := by
  intro nfds tv os h
  simpa [scriptEnv] using h

/-- The scripted environment satisfies the assumption on `recvfrom`. -/
theorem scriptEnv_recvfrom : RecvfromContract scriptEnv := by
  intro s len os h
  simp only [scriptEnv] at h ⊢
  constructor
  · simp
  · have := min_le_right (os.headD SOCKET_ERROR) (len : Int)
    omega

/-- Witness for C6: a three-byte datagram read with `maxSize = 2` into a buffer
of nines: `recvFrom` returns 3, bytes 0 and 1 are the datagram's, byte 2 on is
unchanged. -/
theorem ETH_UDP_recvFrom_buffer_witness :
    ∃ st, ETH_UDP_recvFrom scriptEnv 1500 4 udpRxReady (fun _ => 9) 2 100
        (World.start [1, 3]) = some st ∧
      udpRxReady.RxIsInit ≠ K_FALSE ∧ 0 < 100 ∧ (0 : Int) ≤ 2 ∧ st.result = 3 ∧
      ((0 < st.result →
        ∃ t s len dgram,
          st.world.trace = t ++ [Call.recvfrom s len st.result dgram] ∧
          (∀ i, i < (min st.result 2).toNat → dgram[i]? = some (st.buff i)) ∧
          (∀ i, (min st.result 2).toNat ≤ i → st.buff i = (fun _ => 9) i)) ∧
       (st.result ≤ 0 → st.buff = (fun _ => 9))) :=
  ⟨_, rfl, by decide, by decide, by decide, by decide,
    ETH_UDP_recvFrom_buffer scriptEnv scriptEnv_select scriptEnv_recvfrom 1500 4 udpRxReady
      (fun _ => 9) 2 100 (World.start [1, 3]) _ (by decide) (by decide) (by decide) rfl⟩

/-- C7: `ETH_UDP_InitRx` returns true with `RxIsInit = K_TRUE` if and only if
the socket is valid (it was, or `socket()` gave a valid one), `setsockopt` did
not return `SOCKET_ERROR` and `bind` returned 0; it returns false with
`RxIsInit = K_FALSE` if and only if that fails; and the calls it makes stop at
the first failing step: after a failed `socket()` only the diagnostic follows,
after a failed `setsockopt` no `bind` follows. Here `sock` is the socket
after the creation step and `created` the `socket()` call if one was made. -/
theorem ETH_UDP_InitRx_steps {W : Type} (env : Env W) (chnl : t_ethUdpChnl)
    (clientAdd : List Nat) (clientPort : Int) (w : World W) :
    let sk := env.socket AF_INET SOCK_DGRAM IPPROTO_UDP w.os
    let sock := if chnl.socket = INVALID_SOCKET then sk.1 else chnl.socket
    let os1 := if chnl.socket = INVALID_SOCKET then sk.2 else w.os
    let created :=
      if chnl.socket = INVALID_SOCKET then [Call.socket AF_INET SOCK_DGRAM IPPROTO_UDP sk.1]
      else []
    let addr : sockaddr_in :=
      { sin_family := AF_INET, sin_addr := env.htonl INADDR_ANY,
        sin_port := env.htons (toUShort clientPort) }
    let opt := env.setsockopt sock SOL_SOCKET SO_REUSEADDR 1 os1
    let bnd := env.bind sock addr opt.2
    let out := ETH_UDP_InitRx env chnl clientAdd clientPort w
    ((out.ret = K_TRUE ∧ out.chnl.RxIsInit = K_TRUE) ↔
      (sock ≠ INVALID_SOCKET ∧ opt.1 ≠ SOCKET_ERROR ∧ bnd.1 = 0)) ∧
    ((out.ret = K_FALSE ∧ out.chnl.RxIsInit = K_FALSE) ↔
      ¬ (sock ≠ INVALID_SOCKET ∧ opt.1 ≠ SOCKET_ERROR ∧ bnd.1 = 0)) ∧
    out.world.trace = w.trace ++ created ++
      (if sock = INVALID_SOCKET then [Call.fprintf Diag.initRxSocketFailed]
       else if opt.1 = SOCKET_ERROR then
         [Call.setsockopt sock SOL_SOCKET SO_REUSEADDR 1 opt.1,
          Call.fprintf Diag.initRxSetsockoptFailed]
       else if bnd.1 = 0 then
         [Call.setsockopt sock SOL_SOCKET SO_REUSEADDR 1 opt.1, Call.bind sock addr bnd.1]
       else
         [Call.setsockopt sock SOL_SOCKET SO_REUSEADDR 1 opt.1, Call.bind sock addr bnd.1,
          Call.fprintf Diag.initRxBindFailed]) := by
  intro sk sock os1 created addr opt bnd out
  by_cases hs : chnl.socket = INVALID_SOCKET
  · by_cases h1 : (env.socket AF_INET SOCK_DGRAM IPPROTO_UDP w.os).1 = INVALID_SOCKET
    · simp [out, sock, created, sk, hs, h1, ETH_UDP_InitRx, udpEnsureSocket, sys_socket,
        sys_fprintf, K_TRUE, K_FALSE]
    · by_cases h2 : (env.setsockopt (env.socket AF_INET SOCK_DGRAM IPPROTO_UDP w.os).1
          SOL_SOCKET SO_REUSEADDR 1 (env.socket AF_INET SOCK_DGRAM IPPROTO_UDP w.os).2).1
          = SOCKET_ERROR
      · simp [out, sock, created, sk, opt, os1, hs, h1, h2, ETH_UDP_InitRx, udpEnsureSocket,
          sys_socket, sys_setsockopt, sys_fprintf, K_TRUE, K_FALSE]
      · by_cases h3 : (env.bind (env.socket AF_INET SOCK_DGRAM IPPROTO_UDP w.os).1
            { sin_family := AF_INET, sin_addr := env.htonl INADDR_ANY,
              sin_port := env.htons (toUShort clientPort) }
            (env.setsockopt (env.socket AF_INET SOCK_DGRAM IPPROTO_UDP w.os).1
              SOL_SOCKET SO_REUSEADDR 1
              (env.socket AF_INET SOCK_DGRAM IPPROTO_UDP w.os).2).2).1 = 0
        · simp [out, sock, created, sk, opt, os1, bnd, addr, hs, h1, h2, h3, ETH_UDP_InitRx,
            udpEnsureSocket, sys_socket, sys_setsockopt, sys_bind, sys_fprintf, K_TRUE,
            K_FALSE]
        · simp [out, sock, created, sk, opt, os1, bnd, addr, hs, h1, h2, h3, ETH_UDP_InitRx,
            udpEnsureSocket, sys_socket, sys_setsockopt, sys_bind, sys_fprintf, K_TRUE,
            K_FALSE]
  · by_cases h2 : (env.setsockopt chnl.socket SOL_SOCKET SO_REUSEADDR 1 w.os).1
        = SOCKET_ERROR
    · simp [out, sock, created, opt, os1, hs, h2, ETH_UDP_InitRx, udpEnsureSocket,
        sys_setsockopt, sys_fprintf, K_TRUE, K_FALSE]
    · by_cases h3 : (env.bind chnl.socket
          { sin_family := AF_INET, sin_addr := env.htonl INADDR_ANY,
            sin_port := env.htons (toUShort clientPort) }
          (env.setsockopt chnl.socket SOL_SOCKET SO_REUSEADDR 1 w.os).2).1 = 0
      · simp [out, sock, created, opt, os1, bnd, addr, hs, h2, h3, ETH_UDP_InitRx,
          udpEnsureSocket, sys_setsockopt, sys_bind, sys_fprintf, K_TRUE, K_FALSE]
      · simp [out, sock, created, opt, os1, bnd, addr, hs, h2, h3, ETH_UDP_InitRx,
          udpEnsureSocket, sys_setsockopt, sys_bind, sys_fprintf, K_TRUE, K_FALSE]

/-- Witness for C7: on a descriptor fresh from the factory, with `socket()`
returning 5, `setsockopt` 0 and `bind` failing, `ETH_UDP_InitRx` returns false
with `RxIsInit = K_FALSE` after exactly these three calls and one diagnostic. -/
theorem ETH_UDP_InitRx_steps_witness :
    (ETH_UDP_InitRx scriptEnv (ETH_UDP_SetDefaultVal udpZero) [49] 5000
        (World.start [5, 0, -1])).ret = K_FALSE ∧
    (ETH_UDP_InitRx scriptEnv (ETH_UDP_SetDefaultVal udpZero) [49] 5000
        (World.start [5, 0, -1])).chnl.RxIsInit = K_FALSE ∧
    (ETH_UDP_InitRx scriptEnv (ETH_UDP_SetDefaultVal udpZero) [49] 5000
        (World.start [5, 0, -1])).world.trace =
      [Call.socket 2 2 17 5, Call.setsockopt 5 65535 4 1 0,
       Call.bind 5 { sin_family := 2, sin_addr := 0, sin_port := 5000 } (-1),
       Call.fprintf Diag.initRxBindFailed] :=
  ⟨((ETH_UDP_InitRx_steps scriptEnv (ETH_UDP_SetDefaultVal udpZero) [49] 5000
      (World.start [5, 0, -1])).2.1.mpr (by decide)).1,
   ((ETH_UDP_InitRx_steps scriptEnv (ETH_UDP_SetDefaultVal udpZero) [49] 5000
      (World.start [5, 0, -1])).2.1.mpr (by decide)).2,
   (ETH_UDP_InitRx_steps scriptEnv (ETH_UDP_SetDefaultVal udpZero) [49] 5000
      (World.start [5, 0, -1])).2.2.trans (by decide)⟩

/-- On a descriptor that holds a valid socket `ETH_UDP_InitTx` makes no call:
it stores the destination and sets `TxIsInit`. -/
theorem ETH_UDP_InitTx_valid {W : Type} (env : Env W) (c : t_ethUdpChnl)
    (add : List Nat) (port : Int) (w : World W) (hc : c.socket ≠ INVALID_SOCKET) :
    (ETH_UDP_InitTx env c add port w).world = w ∧
    (ETH_UDP_InitTx env c add port w).chnl.socket = c.socket ∧
    (ETH_UDP_InitTx env c add port w).ret = K_TRUE ∧
    (ETH_UDP_InitTx env c add port w).chnl.TxIsInit = K_TRUE := by
  simp [ETH_UDP_InitTx, udpEnsureSocket, hc]

/-- When `ETH_UDP_InitTx` returns true the descriptor holds a valid socket. -/
theorem ETH_UDP_InitTx_true_valid {W : Type} (env : Env W) (c : t_ethUdpChnl)
    (add : List Nat) (port : Int) (w : World W)
    (h : (ETH_UDP_InitTx env c add port w).ret = K_TRUE) :
    (ETH_UDP_InitTx env c add port w).chnl.socket ≠ INVALID_SOCKET := by
  unfold ETH_UDP_InitTx at h ⊢
  by_cases h1 : (udpEnsureSocket env { c with TxIsInit := K_FALSE } w).1.socket
      = INVALID_SOCKET
  · rw [if_pos h1] at h
    have h2 : (udpEnsureSocket env { c with TxIsInit := K_FALSE } w).1.TxIsInit = K_FALSE := by
      unfold udpEnsureSocket
      split <;> rfl
    simp only [h2] at h
    exact absurd h (by decide)
  · rw [if_neg h1]
    exact h1

/-- C8: if a first `ETH_UDP_InitTx` on a descriptor succeeds, it leaves a valid
socket handle, and a second `ETH_UDP_InitTx` on that descriptor, with any
address and port and from any state of the world, makes no call at all (so no
`socket()`), keeps the socket handle of the first call and returns true with
`TxIsInit = K_TRUE`. -/
theorem ETH_UDP_InitTx_twice {W : Type} (env : Env W) (chnl : t_ethUdpChnl)
    (add1 add2 : List Nat) (port1 port2 : Int) (w w2 : World W)
    (h : (ETH_UDP_InitTx env chnl add1 port1 w).ret = K_TRUE) :
    (ETH_UDP_InitTx env chnl add1 port1 w).chnl.socket ≠ INVALID_SOCKET ∧
    (ETH_UDP_InitTx env (ETH_UDP_InitTx env chnl add1 port1 w).chnl add2 port2 w2).world.trace
      = w2.trace ∧
    (ETH_UDP_InitTx env (ETH_UDP_InitTx env chnl add1 port1 w).chnl add2 port2 w2).world.os
      = w2.os ∧
    (ETH_UDP_InitTx env (ETH_UDP_InitTx env chnl add1 port1 w).chnl add2 port2 w2).chnl.socket
      = (ETH_UDP_InitTx env chnl add1 port1 w).chnl.socket ∧
    (ETH_UDP_InitTx env (ETH_UDP_InitTx env chnl add1 port1 w).chnl add2 port2 w2).ret
      = K_TRUE ∧
    (ETH_UDP_InitTx env (ETH_UDP_InitTx env chnl add1 port1 w).chnl add2 port2 w2).chnl.TxIsInit
      = K_TRUE := by
  have hv := ETH_UDP_InitTx_true_valid env chnl add1 port1 w h
  have h2 := ETH_UDP_InitTx_valid env (ETH_UDP_InitTx env chnl add1 port1 w).chnl add2 port2
    w2 hv
  exact ⟨hv, by rw [h2.1], by rw [h2.1], h2.2.1, h2.2.2.1, h2.2.2.2⟩

/-- Witness for C8: a descriptor fresh from the factory, a first `InitTx` whose
`socket()` returns handle 5, then a second `InitTx` to another address. -/
theorem ETH_UDP_InitTx_twice_witness :
    (ETH_UDP_InitTx scriptEnv (ETH_UDP_SetDefaultVal udpZero) [49] 5000
        (World.start [5])).ret = K_TRUE ∧
    ((ETH_UDP_InitTx scriptEnv (ETH_UDP_SetDefaultVal udpZero) [49] 5000
        (World.start [5])).chnl.socket ≠ INVALID_SOCKET ∧
    (ETH_UDP_InitTx scriptEnv (ETH_UDP_InitTx scriptEnv (ETH_UDP_SetDefaultVal udpZero) [49]
        5000 (World.start [5])).chnl [50] 6000 (World.start [6])).world.trace
      = (World.start [6]).trace ∧
    (ETH_UDP_InitTx scriptEnv (ETH_UDP_InitTx scriptEnv (ETH_UDP_SetDefaultVal udpZero) [49]
        5000 (World.start [5])).chnl [50] 6000 (World.start [6])).world.os
      = (World.start [6]).os ∧
    (ETH_UDP_InitTx scriptEnv (ETH_UDP_InitTx scriptEnv (ETH_UDP_SetDefaultVal udpZero) [49]
        5000 (World.start [5])).chnl [50] 6000 (World.start [6])).chnl.socket
      = (ETH_UDP_InitTx scriptEnv (ETH_UDP_SetDefaultVal udpZero) [49] 5000
        (World.start [5])).chnl.socket ∧
    (ETH_UDP_InitTx scriptEnv (ETH_UDP_InitTx scriptEnv (ETH_UDP_SetDefaultVal udpZero) [49]
        5000 (World.start [5])).chnl [50] 6000 (World.start [6])).ret = K_TRUE ∧
    (ETH_UDP_InitTx scriptEnv (ETH_UDP_InitTx scriptEnv (ETH_UDP_SetDefaultVal udpZero) [49]
        5000 (World.start [5])).chnl [50] 6000 (World.start [6])).chnl.TxIsInit = K_TRUE) :=
  ⟨by decide,
    ETH_UDP_InitTx_twice scriptEnv (ETH_UDP_SetDefaultVal udpZero) [49] [50] 5000 6000
      (World.start [5]) (World.start [6]) (by decide)⟩

/-- C9 (counterexample): on a descriptor fresh from the factory, when `socket()`
returns handle 5 and `connect()` fails, `ETH_TCP_Open` keeps handle 5 in the
descriptor and `ETH_TCP_Close` makes no call and changes nothing: after Open
and Close the socket is 5, not `INVALID_SOCKET`. -/
theorem ETH_TCP_Open_Close_failed_connect :
    (ETH_TCP_SetDefaultVal tcpZero).connect = K_FALSE ∧
    (ETH_TCP_Open scriptEnv (ETH_TCP_SetDefaultVal tcpZero) [49] 80
        (World.start [5, -1])).world.trace =
      [Call.socket 2 1 0 5,
       Call.connect 5 { sin_family := 2, sin_addr := 0, sin_port := 80 } (-1),
       Call.fprintf Diag.openConnectFailed] ∧
    (ETH_TCP_Close scriptEnv
        (ETH_TCP_Open scriptEnv (ETH_TCP_SetDefaultVal tcpZero) [49] 80
          (World.start [5, -1])).chnl
        (ETH_TCP_Open scriptEnv (ETH_TCP_SetDefaultVal tcpZero) [49] 80
          (World.start [5, -1])).world).world.trace =
      (ETH_TCP_Open scriptEnv (ETH_TCP_SetDefaultVal tcpZero) [49] 80
        (World.start [5, -1])).world.trace ∧
    (ETH_TCP_Close scriptEnv
        (ETH_TCP_Open scriptEnv (ETH_TCP_SetDefaultVal tcpZero) [49] 80
          (World.start [5, -1])).chnl
        (ETH_TCP_Open scriptEnv (ETH_TCP_SetDefaultVal tcpZero) [49] 80
          (World.start [5, -1])).world).chnl.socket = 5 ∧
    ¬ ((ETH_TCP_Close scriptEnv
        (ETH_TCP_Open scriptEnv (ETH_TCP_SetDefaultVal tcpZero) [49] 80
          (World.start [5, -1])).chnl
        (ETH_TCP_Open scriptEnv (ETH_TCP_SetDefaultVal tcpZero) [49] 80
          (World.start [5, -1])).world).chnl.socket = INVALID_SOCKET) := by
  refine ⟨rfl, ?_, ?_, ?_, ?_⟩ <;> decide

/-- On a not-connected descriptor `ETH_TCP_Open` is not rejected: its first
call is `socket()`, the descriptor then holds what `socket()` returned, and the
connected flag is `K_TRUE` exactly when `socket()` gave a valid handle and
`connect()` did not return `SOCKET_ERROR`, and is unchanged otherwise. -/
theorem ETH_TCP_Open_not_connected {W : Type} (env : Env W) (c : t_ethTcpChnl)
    (add : List Nat) (port : Int) (w : World W) (hc : c.connect = K_FALSE) :
    (∃ rest, (ETH_TCP_Open env c add port w).world.trace =
      w.trace ++ Call.socket PF_INET SOCK_STREAM 0
        (env.socket PF_INET SOCK_STREAM 0 w.os).1 :: rest) ∧
    (ETH_TCP_Open env c add port w).chnl.socket = (env.socket PF_INET SOCK_STREAM 0 w.os).1 ∧
    (ETH_TCP_Open env c add port w).ret = (ETH_TCP_Open env c add port w).chnl.connect ∧
    (ETH_TCP_Open env c add port w).chnl.connect =
      (if (env.socket PF_INET SOCK_STREAM 0 w.os).1 ≠ INVALID_SOCKET ∧
          (env.connect (env.socket PF_INET SOCK_STREAM 0 w.os).1
            { sin_family := AF_INET, sin_addr := env.inet_addr add,
              sin_port := env.htons (toUShort port) }
            (env.socket PF_INET SOCK_STREAM 0 w.os).2).1 ≠ SOCKET_ERROR
       then K_TRUE else K_FALSE) ∧
    (ETH_TCP_Open env c add port w).world.os =
      (if (env.socket PF_INET SOCK_STREAM 0 w.os).1 = INVALID_SOCKET
       then (env.socket PF_INET SOCK_STREAM 0 w.os).2
       else (env.connect (env.socket PF_INET SOCK_STREAM 0 w.os).1
            { sin_family := AF_INET, sin_addr := env.inet_addr add,
              sin_port := env.htons (toUShort port) }
            (env.socket PF_INET SOCK_STREAM 0 w.os).2).2) := by
  have hc0 : c.connect = 0 := hc
  by_cases h1 : (env.socket PF_INET SOCK_STREAM 0 w.os).1 = INVALID_SOCKET
  · simp [ETH_TCP_Open, sys_socket, sys_fprintf, hc0, h1, K_FALSE]
  · by_cases h2 : (env.connect (env.socket PF_INET SOCK_STREAM 0 w.os).1
        { sin_family := AF_INET, sin_addr := env.inet_addr add,
          sin_port := env.htons (toUShort port) }
        (env.socket PF_INET SOCK_STREAM 0 w.os).2).1 = SOCKET_ERROR
    · simp [ETH_TCP_Open, sys_socket, sys_connect, sys_fprintf, hc0, h1, h2, K_FALSE]
    · simp [ETH_TCP_Open, sys_socket, sys_connect, sys_fprintf, hc0, h1, h2, K_TRUE]

/-- On a not-connected descriptor `ETH_TCP_Close` does nothing. -/
theorem ETH_TCP_Close_not_connected {W : Type} (env : Env W) (c : t_ethTcpChnl)
    (w : World W) (hc : c.connect = 0) :
    (ETH_TCP_Close env c w).chnl = c ∧ (ETH_TCP_Close env c w).world = w := by
  simp [ETH_TCP_Close, hc]

/-- On a connected descriptor, when `shutdown` returns 0, `ETH_TCP_Close` puts
the descriptor back to the default state. -/
theorem ETH_TCP_Close_connected {W : Type} (env : Env W) (c : t_ethTcpChnl)
    (w : World W) (hc : c.connect ≠ 0) (hs : (env.shutdown c.socket 2 w.os).1 = 0) :
    (ETH_TCP_Close env c w).chnl.connect = K_FALSE ∧
    (ETH_TCP_Close env c w).chnl.socket = INVALID_SOCKET := by
  have h0 : ¬ toUnsigned 0 = toUnsigned SOCKET_ERROR := by decide
  simp [ETH_TCP_Close, sys_shutdown, hc, hs, h0]

/-- C9 (as amended): for a not-connected TCP descriptor, with `shutdown()`
returning 0 whenever `ETH_TCP_Close` calls it: after `ETH_TCP_Open` followed by
`ETH_TCP_Close` the descriptor has `connect = K_FALSE` for every outcome of
`socket()` and `connect()`; it has `socket = INVALID_SOCKET` when `socket()`
failed or `connect()` succeeded; and a subsequent `ETH_TCP_Open`, from any
state of the world, is not rejected (its first call is `socket()`) and returns
true with `connect = K_TRUE` when its `socket()` and `connect()` succeed. -/
theorem ETH_TCP_Open_Close {W : Type} (env : Env W) (chnl : t_ethTcpChnl)
    (add1 add2 : List Nat) (port1 port2 : Int) (w w3 : World W)
    (hc : chnl.connect = K_FALSE)
    (hsd : (ETH_TCP_Open env chnl add1 port1 w).chnl.connect ≠ 0 →
      (env.shutdown (ETH_TCP_Open env chnl add1 port1 w).chnl.socket 2
        (ETH_TCP_Open env chnl add1 port1 w).world.os).1 = 0) :
    let o1 := ETH_TCP_Open env chnl add1 port1 w
    let o2 := ETH_TCP_Close env o1.chnl o1.world
    let o3 := ETH_TCP_Open env o2.chnl add2 port2 w3
    let sk1 := env.socket PF_INET SOCK_STREAM 0 w.os
    let k1 := env.connect sk1.1
      { sin_family := AF_INET, sin_addr := env.inet_addr add1,
        sin_port := env.htons (toUShort port1) } sk1.2
    let sk3 := env.socket PF_INET SOCK_STREAM 0 w3.os
    let k3 := env.connect sk3.1
      { sin_family := AF_INET, sin_addr := env.inet_addr add2,
        sin_port := env.htons (toUShort port2) } sk3.2
    o2.chnl.connect = K_FALSE ∧
    ((sk1.1 = INVALID_SOCKET ∨ k1.1 ≠ SOCKET_ERROR) → o2.chnl.socket = INVALID_SOCKET) ∧
    (∃ rest, o3.world.trace = w3.trace ++ Call.socket PF_INET SOCK_STREAM 0 sk3.1 :: rest) ∧
    (sk3.1 ≠ INVALID_SOCKET → k3.1 ≠ SOCKET_ERROR →
      o3.ret = K_TRUE ∧ o3.chnl.connect = K_TRUE) := by
  intro o1 o2 o3 sk1 k1 sk3 k3
  have ho := ETH_TCP_Open_not_connected env chnl add1 port1 w hc
  have h2 : o2.chnl.connect = K_FALSE ∧
      ((sk1.1 = INVALID_SOCKET ∨ k1.1 ≠ SOCKET_ERROR) → o2.chnl.socket = INVALID_SOCKET) := by
    by_cases hcon : o1.chnl.connect = 0
    · have hcl := ETH_TCP_Close_not_connected env o1.chnl o1.world hcon
      refine ⟨by show (ETH_TCP_Close env o1.chnl o1.world).chnl.connect = K_FALSE
                 rw [hcl.1]; exact hcon, ?_⟩
      intro hor
      show (ETH_TCP_Close env o1.chnl o1.world).chnl.socket = INVALID_SOCKET
      rw [hcl.1]
      rcases hor with hinv | hok
      · rw [ho.2.1]; exact hinv
      · by_cases hinv : sk1.1 = INVALID_SOCKET
        · rw [ho.2.1]; exact hinv
        · have h4 := ho.2.2.2.1
          rw [if_pos ⟨hinv, hok⟩] at h4
          have h5 : o1.chnl.connect = K_TRUE := h4
          rw [hcon] at h5
          exact absurd h5 (by decide)
    · have hcl := ETH_TCP_Close_connected env o1.chnl o1.world hcon (hsd hcon)
      exact ⟨hcl.1, fun _ => hcl.2⟩
  have h3 := ETH_TCP_Open_not_connected env o2.chnl add2 port2 w3 h2.1
  refine ⟨h2.1, h2.2, h3.1, ?_⟩
  intro ha hb
  have h4 := h3.2.2.2.1
  rw [if_pos ⟨ha, hb⟩] at h4
  exact ⟨h3.2.2.1.trans h4, h4⟩

/-- Witness for C9 (as amended): a descriptor fresh from the factory, an Open
whose `socket()` returns 5 and whose `connect()` succeeds, a Close whose
`shutdown()` returns 0, then an Open whose `socket()` returns 6. -/
theorem ETH_TCP_Open_Close_witness :
    (ETH_TCP_SetDefaultVal tcpZero).connect = K_FALSE ∧
    (ETH_TCP_Close scriptEnv
      (ETH_TCP_Open scriptEnv (ETH_TCP_SetDefaultVal tcpZero) [49] 80
        (World.start [5, 0, 0])).chnl
      (ETH_TCP_Open scriptEnv (ETH_TCP_SetDefaultVal tcpZero) [49] 80
        (World.start [5, 0, 0])).world).chnl.connect = K_FALSE ∧
    (ETH_TCP_Close scriptEnv
      (ETH_TCP_Open scriptEnv (ETH_TCP_SetDefaultVal tcpZero) [49] 80
        (World.start [5, 0, 0])).chnl
      (ETH_TCP_Open scriptEnv (ETH_TCP_SetDefaultVal tcpZero) [49] 80
        (World.start [5, 0, 0])).world).chnl.socket = INVALID_SOCKET ∧
    (ETH_TCP_Open scriptEnv
      (ETH_TCP_Close scriptEnv
        (ETH_TCP_Open scriptEnv (ETH_TCP_SetDefaultVal tcpZero) [49] 80
          (World.start [5, 0, 0])).chnl
        (ETH_TCP_Open scriptEnv (ETH_TCP_SetDefaultVal tcpZero) [49] 80
          (World.start [5, 0, 0])).world).chnl
      [50] 81 (World.start [6, 0])).ret = K_TRUE :=
  ⟨rfl,
   (ETH_TCP_Open_Close scriptEnv (ETH_TCP_SetDefaultVal tcpZero) [49] [50] 80 81
      (World.start [5, 0, 0]) (World.start [6, 0]) rfl (by decide)).1,
   (ETH_TCP_Open_Close scriptEnv (ETH_TCP_SetDefaultVal tcpZero) [49] [50] 80 81
      (World.start [5, 0, 0]) (World.start [6, 0]) rfl (by decide)).2.1 (Or.inr (by decide)),
   ((ETH_TCP_Open_Close scriptEnv (ETH_TCP_SetDefaultVal tcpZero) [49] [50] 80 81
      (World.start [5, 0, 0]) (World.start [6, 0]) rfl (by decide)).2.2.2
      (by decide) (by decide)).1⟩

/-- C10: on a not-connected descriptor `ETH_TCP_SendData` makes no `send` (the
trace grows by one diagnostic only), returns 0 and leaves the descriptor and
the operating-system state unchanged; on a connected descriptor it calls `send`
exactly once, makes no other input/output call, returns exactly the value of
that call (the bytes sent, or `SOCKET_ERROR`) and leaves the descriptor
unchanged. -/
theorem ETH_TCP_SendData_once {W : Type} (env : Env W) (chnl : t_ethTcpChnl)
    (data : Mem) (size : Nat) (w : World W) :
    (chnl.connect = K_FALSE →
      (ETH_TCP_SendData env chnl data size w).ret = 0 ∧
      (ETH_TCP_SendData env chnl data size w).chnl = chnl ∧
      (ETH_TCP_SendData env chnl data size w).world.os = w.os ∧
      (ETH_TCP_SendData env chnl data size w).world.trace =
        w.trace ++ [Call.fprintf Diag.tcpSendNotConnected] ∧
      ioCalls (ETH_TCP_SendData env chnl data size w).world.trace = ioCalls w.trace) ∧
    (chnl.connect ≠ K_FALSE →
      (ETH_TCP_SendData env chnl data size w).ret =
        (env.send chnl.socket (data.read size) w.os).1 ∧
      (ETH_TCP_SendData env chnl data size w).chnl = chnl ∧
      ioCalls (ETH_TCP_SendData env chnl data size w).world.trace =
        ioCalls w.trace ++ [Call.send chnl.socket (data.read size)
          (env.send chnl.socket (data.read size) w.os).1] ∧
      ((ETH_TCP_SendData env chnl data size w).world.trace.filter Call.isSend).length =
        (w.trace.filter Call.isSend).length + 1) := by
  constructor
  · intro hc
    have hc0 : chnl.connect = 0 := hc
    simp [ETH_TCP_SendData, hc0, sys_fprintf, ioCalls, Call.isIO]
  · intro hc
    have hc0 : ¬ chnl.connect = 0 := hc
    by_cases h1 : (env.send chnl.socket (data.read size) w.os).1 = SOCKET_ERROR
    · simp [ETH_TCP_SendData, hc0, h1, sys_send, sys_fprintf, ioCalls, Call.isIO,
        Call.isSend]
    · by_cases h2 : toUnsigned (env.send chnl.socket (data.read size) w.os).1
          = size % 4294967296
      · simp [ETH_TCP_SendData, hc0, h1, h2, sys_send, sys_fprintf, ioCalls, Call.isIO,
          Call.isSend]
      · simp [ETH_TCP_SendData, hc0, h1, h2, sys_send, sys_fprintf, ioCalls, Call.isIO,
          Call.isSend]

/-- Witness for C10: a connected descriptor on socket 5 sending 4 bytes of which
`send` takes 2 (a short send): one `send`, and 2 is returned. -/
theorem ETH_TCP_SendData_once_witness :
    ({ tcpZero with connect := K_TRUE, socket := 5 } : t_ethTcpChnl).connect ≠ K_FALSE ∧
    (ETH_TCP_SendData scriptEnv { tcpZero with connect := K_TRUE, socket := 5 }
        (fun _ => 65) 4 (World.start [2])).ret = 2 ∧
    ((ETH_TCP_SendData scriptEnv { tcpZero with connect := K_TRUE, socket := 5 }
        (fun _ => 65) 4 (World.start [2])).world.trace.filter Call.isSend).length = 1 ∧
    (tcpZero.connect = K_FALSE ∧
      (ETH_TCP_SendData scriptEnv tcpZero (fun _ => 65) 4 (World.start [2])).ret = 0) :=
  ⟨by decide,
   ((ETH_TCP_SendData_once scriptEnv { tcpZero with connect := K_TRUE, socket := 5 }
      (fun _ => 65) 4 (World.start [2])).2 (by decide)).1,
   ((ETH_TCP_SendData_once scriptEnv { tcpZero with connect := K_TRUE, socket := 5 }
      (fun _ => 65) 4 (World.start [2])).2 (by decide)).2.2.2,
   rfl,
   ((ETH_TCP_SendData_once scriptEnv tcpZero (fun _ => 65) 4 (World.start [2])).1 rfl).1⟩

/-- In the queue model, when no pending datagram has length zero, the drain loop
of `ETH_UDP_Flush` ends with the queue empty, given one iteration per
datagram and one more. -/
theorem Flush_loop_drains (ETH_BUF_SIZE : Nat) (tv : timeval) (q : List (List Nat))
    (hq : ∀ d ∈ q, d ≠ []) (fuel : Nat) (hf : q.length < fuel) (chnl : t_ethUdpChnl)
    (trace : List Call) :
    ∃ c w, Flush_loop queueEnv ETH_BUF_SIZE tv fuel chnl { os := q, trace := trace }
        = some (c, w) ∧ w.os = [] := by
  induction q generalizing fuel chnl trace with
  | nil =>
    obtain ⟨f, rfl⟩ : ∃ f, fuel = f + 1 := ⟨fuel - 1, by simp at hf; omega⟩
    simp only [Flush_loop, sys_select, queueEnv, if_true, List.isEmpty_nil, Bool.not_true,
      gt_iff_lt, Int.lt_irrefl, if_false]
    exact ⟨_, _, rfl, rfl⟩
  | cons d rest ih =>
    obtain ⟨f, rfl⟩ : ∃ f, fuel = f + 1 := ⟨fuel - 1, by simp at hf; omega⟩
    have hd : d ≠ [] := hq d (List.mem_cons_self _ _)
    have hlen : 0 < d.length := List.length_pos.mpr hd
    have hne : ¬ ((d.length : Int) = SOCKET_ERROR) := by
      simp only [SOCKET_ERROR]; omega
    have hpos : (0 : Int) < (d.length : Int) := by omega
    have hrest : ∀ x ∈ rest, x ≠ [] := fun x hx => hq x (List.mem_cons_of_mem _ hx)
    have hf2 : rest.length < f := by simp at hf; omega
    unfold Flush_loop
    simp only [sys_select, sys_recvfrom, queueEnv, List.isEmpty_cons, Bool.not_false,
      if_true, hne, if_false, hpos, gt_iff_lt, Int.lt_irrefl, reduceCtorEq, zero_lt_one]
    exact ih hrest f hf2 _ _

/-- In the queue model, on a receive-ready descriptor and with no pending
datagram of length zero, `ETH_UDP_Flush` returns with the queue empty. -/
theorem ETH_UDP_Flush_drains_nonempty (ETH_BUF_SIZE : Nat) (q : List (List Nat))
    (hq : ∀ d ∈ q, d ≠ []) (chnl : t_ethUdpChnl) (hrx : chnl.RxIsInit ≠ K_FALSE)
    (trace : List Call) :
    ∃ c w, ETH_UDP_Flush queueEnv ETH_BUF_SIZE (q.length + 1) chnl { os := q, trace := trace }
        = some (c, w) ∧ w.os = [] := by
  obtain ⟨c, w, h1, h2⟩ := Flush_loop_drains ETH_BUF_SIZE { tv_sec := 0, tv_usec := 100000 } q
    hq (q.length + 1) (Nat.lt_succ_self _) chnl trace
  have h0 : ¬ chnl.RxIsInit = 0 := hrx
  refine ⟨{ c with buff := memset c.buff 0 ETH_BUF_SIZE }, w, ?_, h2⟩
  simp [ETH_UDP_Flush, h0, h1]

/-- Once the loop of `ETH_UDP_recvFrom` has ended within some fuel, more fuel
gives the same result: the value returned does not depend on the bound. -/
theorem recvFrom_loop_fuel_mono {W : Type} (env : Env W) (ETH_BUF_SIZE : Nat) (maxSize : Int)
    (tv : timeval) (timer : Nat) (fuel k : Nat) (chnl : t_ethUdpChnl) (buff : Mem)
    (w : World W) (st : RecvState W)
    (h : recvFrom_loop env ETH_BUF_SIZE maxSize tv timer fuel chnl buff w = some st) :
    recvFrom_loop env ETH_BUF_SIZE maxSize tv timer (fuel + k) chnl buff w = some st := by
  induction fuel generalizing chnl buff w with
  | zero => simp [recvFrom_loop] at h
  | succ fuel ih =>
    have e : fuel + 1 + k = (fuel + k) + 1 := by omega
    rw [e]
    unfold recvFrom_loop at h ⊢
    simp only at h ⊢
    by_cases h0 : (recvFrom_body env ETH_BUF_SIZE maxSize tv chnl buff w).result = 0
    · simp only [h0, if_true] at h ⊢
      by_cases ht : (sys_TimedOut env timer
          (recvFrom_body env ETH_BUF_SIZE maxSize tv chnl buff w).world).1 = true
      · simp only [ht, if_true] at h ⊢
        exact h
      · simp only [ht, if_false] at h ⊢
        exact ih _ _ _ h
    · simp only [h0, if_false] at h ⊢
      exact h

/-- The loop of `ETH_UDP_recvFrom` is `pollLoop` on its body. -/
theorem recvFrom_loop_eq_pollLoop {W : Type} (env : Env W) (ETH_BUF_SIZE : Nat)
    (maxSize : Int) (tv : timeval) (timer : Nat) (fuel : Nat) (chnl : t_ethUdpChnl)
    (buff : Mem) (w : World W) :
    recvFrom_loop env ETH_BUF_SIZE maxSize tv timer fuel chnl buff w =
      pollLoop env timer (recvFrom_body env ETH_BUF_SIZE maxSize tv) fuel chnl buff w := by
  induction fuel generalizing chnl buff w with
  | zero => rfl
  | succ fuel ih => simp only [recvFrom_loop, pollLoop, ih]

/-- The loop of `ETH_UDP_recvData` is `pollLoop` on its body. -/
theorem recvData_loop_eq_pollLoop {W : Type} (env : Env W) (expectedSize : Int)
    (tv : timeval) (timer : Nat) (fuel : Nat) (chnl : t_ethUdpChnl) (buff : Mem)
    (w : World W) :
    recvData_loop env expectedSize tv timer fuel chnl buff w =
      pollLoop env timer (recvData_body env expectedSize tv) fuel chnl buff w := by
  induction fuel generalizing chnl buff w with
  | zero => rfl
  | succ fuel ih => simp only [recvData_loop, pollLoop, ih]

/-- Calls that do not end the polling, put in front of a list, do not change
whether the list is quiet after its end. -/
theorem quietAfterEnd_append_left (pre l : List Call)
    (h : ∀ c ∈ pre, c.endsPolling = false) :
    quietAfterEnd (pre ++ l) = quietAfterEnd l := by
  induction pre with
  | nil => rfl
  | cons c pre ih =>
    have hc : c.endsPolling = false := h c (List.mem_cons_self _ _)
    have ih2 := ih (fun d hd => h d (List.mem_cons_of_mem _ hd))
    simp [quietAfterEnd, hc, ih2]

/-- In a list that is quiet after its end, no `select` or `recvfrom` follows a
failed `select` or a `recvfrom` with a non-zero result. -/
theorem quietAfterEnd_split (l : List Call) (h : quietAfterEnd l = true)
    (pre : List Call) (c : Call) (post : List Call) (hl : l = pre ++ c :: post)
    (hc : c.endsPolling = true) : ∀ d ∈ post, d.isSelectOrRecvfrom = false := by
  subst hl
  induction pre with
  | nil =>
    simp only [List.nil_append, quietAfterEnd, hc, if_true, Bool.and_eq_true,
      List.all_eq_true] at h
    intro d hd
    have := h.1 d hd
    simpa using this
  | cons a pre ih =>
    simp only [List.cons_append, quietAfterEnd, Bool.and_eq_true] at h
    exact ih h.2

/-- A loop whose body satisfies `BodyOk` only appends calls to the trace and,
when it ends, its result and these calls satisfy `PollDone`. -/
theorem pollLoop_done {W : Type} (env : Env W) (timer : Nat)
    (body : t_ethUdpChnl → Mem → World W → RecvState W) (hb : BodyOk body)
    (fuel : Nat) (chnl : t_ethUdpChnl) (buff : Mem) (w : World W) (st : RecvState W)
    (hret : pollLoop env timer body fuel chnl buff w = some st) :
    ∃ new, st.world.trace = w.trace ++ new ∧ PollDone st.result new := by
  induction fuel generalizing chnl buff w with
  | zero => simp [pollLoop] at hret
  | succ fuel ih =>
    obtain ⟨ev, htr, hz, hnz⟩ := hb chnl buff w
    unfold pollLoop at hret
    simp only at hret
    by_cases h0 : (body chnl buff w).result = 0
    · have hev := hz h0
      have hquiet : ∀ c ∈ ev, c.endsPolling = false := fun c hc => (hev c hc).1
      have hfail : ev.any Call.isFailedPoll = false := by
        rw [List.any_eq_false]
        intro c hc
        simp [(hev c hc).2]
      simp only [h0, if_true] at hret
      by_cases ht : (sys_TimedOut env timer (body chnl buff w).world).1 = true
      · simp only [ht, if_true, Option.some.injEq] at hret
        subst hret
        have hlast : (env.UTIL_TimedOut timer (body chnl buff w).world.os).1 = true := ht
        refine ⟨ev ++ [Call.UTIL_TimedOut timer true], ?_, ?_, ?_, ?_, ?_⟩
        · simp only [sys_TimedOut, htr, hlast, List.append_assoc]
        · intro _
          exact ⟨ev, timer, rfl⟩
        · intro hpos
          simp only [h0] at hpos
          omega
        · simp only [h0, List.any_append, hfail, List.any_cons, Call.isFailedPoll,
            List.any_nil, Bool.or_false, Bool.false_eq_true, iff_false]
          omega
        · rw [quietAfterEnd_append_left _ _ hquiet]
          rfl
      · simp only [ht, if_false] at hret
        obtain ⟨new, hnew, hdone⟩ := ih _ _ _ hret
        have hlast : (env.UTIL_TimedOut timer (body chnl buff w).world.os).1 = false := by
          simpa [sys_TimedOut] using ht
        refine ⟨ev ++ Call.UTIL_TimedOut timer false :: new, ?_, ?_, ?_, ?_, ?_⟩
        · rw [hnew]
          simp only [sys_TimedOut, htr, hlast, List.append_assoc, List.singleton_append]
        · intro hr
          obtain ⟨t, tm, ht2⟩ := hdone.1 hr
          exact ⟨ev ++ Call.UTIL_TimedOut timer false :: t, tm, by simp [ht2]⟩
        · intro hr
          obtain ⟨t, s, len, bytes, ht2⟩ := hdone.2.1 hr
          exact ⟨ev ++ Call.UTIL_TimedOut timer false :: t, s, len, bytes, by simp [ht2]⟩
        · rw [hdone.2.2.1]
          simp only [List.any_append, hfail, List.any_cons, Call.isFailedPoll,
            Bool.false_or]
        · have hpre : ∀ c ∈ ev ++ [Call.UTIL_TimedOut timer false],
              c.endsPolling = false := by
            intro c hc
            rcases List.mem_append.mp hc with h1 | h1
            · exact hquiet c h1
            · simp only [List.mem_singleton] at h1
              subst h1
              rfl
          have := quietAfterEnd_append_left _ new hpre
          simp only [List.append_assoc, List.singleton_append] at this
          rw [this]
          exact hdone.2.2.2
    · simp only [h0, if_false, Option.some.injEq] at hret
      subst hret
      exact ⟨ev, htr, hnz h0⟩

/-- The body of the loop of `ETH_UDP_recvFrom` satisfies `BodyOk` when `select`
flags the socket whenever it returns a positive count. -/
theorem recvFrom_body_ok {W : Type} (env : Env W) (hsel : SelectContract env)
    (ETH_BUF_SIZE : Nat) (maxSize : Int) (tv : timeval) :
    BodyOk (recvFrom_body env ETH_BUF_SIZE maxSize tv) := by
  intro chnl buff w
  unfold recvFrom_body
  simp only [sys_select, sys_recvfrom, sys_fprintf]
  by_cases h1 : (env.select (chnl.socket + 1) tv w.os).1.1 = SOCKET_ERROR
  · have hneg : (env.select (chnl.socket + 1) tv w.os).1.1 < 0 := by
      rw [h1]; decide
    refine ⟨[Call.select (chnl.socket + 1) tv (env.select (chnl.socket + 1) tv w.os).1.1
        (env.select (chnl.socket + 1) tv w.os).1.2,
        Call.fprintf Diag.recvFromSelectFailed], ?_, ?_, ?_⟩
    · simp [h1]
    · simp only [h1, if_true]
      intro h; exact absurd h (by decide)
    · simp only [h1, if_true]
      intro _
      refine ⟨fun h => absurd h (by decide), fun h => absurd h (by decide), ?_, ?_⟩
      · simp [Call.isFailedPoll, SOCKET_ERROR]
      · simp [quietAfterEnd, Call.endsPolling, Call.isSelectOrRecvfrom, SOCKET_ERROR]
  · simp only [h1, if_false]
    by_cases h2 : (env.select (chnl.socket + 1) tv w.os).1.1 > 0
    · have h3 := hsel _ _ _ h2
      have hsn : ¬ (env.select (chnl.socket + 1) tv w.os).1.1 < 0 := by omega
      simp only [h2, h3, if_true]
      by_cases h4 : (env.recvfrom chnl.socket ETH_BUF_SIZE
          (env.select (chnl.socket + 1) tv w.os).2).1.1 < 0
      · have hne : (env.recvfrom chnl.socket ETH_BUF_SIZE
            (env.select (chnl.socket + 1) tv w.os).2).1.1 ≠ 0 := by omega
        refine ⟨[Call.select (chnl.socket + 1) tv (env.select (chnl.socket + 1) tv w.os).1.1
            true,
            Call.recvfrom chnl.socket ETH_BUF_SIZE
              (env.recvfrom chnl.socket ETH_BUF_SIZE
                (env.select (chnl.socket + 1) tv w.os).2).1.1
              (env.recvfrom chnl.socket ETH_BUF_SIZE
                (env.select (chnl.socket + 1) tv w.os).2).1.2,
            Call.fprintf Diag.recvFromRecvfromFailed], ?_, ?_, ?_⟩
        · simp [h4, h3]
        · simp only [h4, if_true]
          intro h; exact absurd h hne
        · simp only [h4, if_true]
          intro _
          refine ⟨fun h => absurd h hne, fun h => by omega, ?_, ?_⟩
          · simp [Call.isFailedPoll, h4]
          · simp [quietAfterEnd, Call.endsPolling, Call.isSelectOrRecvfrom, hsn, hne]
      · refine ⟨[Call.select (chnl.socket + 1) tv (env.select (chnl.socket + 1) tv w.os).1.1
            true,
            Call.recvfrom chnl.socket ETH_BUF_SIZE
              (env.recvfrom chnl.socket ETH_BUF_SIZE
                (env.select (chnl.socket + 1) tv w.os).2).1.1
              (env.recvfrom chnl.socket ETH_BUF_SIZE
                (env.select (chnl.socket + 1) tv w.os).2).1.2], ?_, ?_, ?_⟩
        · simp [h4, h3]
        · simp only [h4, if_false]
          intro h0 c hc
          simp only [List.mem_cons, List.mem_singleton, List.mem_nil_iff, or_false] at hc
          rcases hc with rfl | rfl
          · simp [Call.endsPolling, Call.isFailedPoll, hsn]
          · simp [Call.endsPolling, Call.isFailedPoll, h0]
        · simp only [h4, if_false]
          intro hne
          refine ⟨fun h => absurd h hne,
            fun _ => ⟨[Call.select (chnl.socket + 1) tv
              (env.select (chnl.socket + 1) tv w.os).1.1 true], _, _, _, rfl⟩, ?_, ?_⟩
          · simp [Call.isFailedPoll, h4, hsn]
          · simp [quietAfterEnd, Call.endsPolling, Call.isSelectOrRecvfrom, hsn]
    · simp only [h2, if_false]
      refine ⟨[Call.select (chnl.socket + 1) tv (env.select (chnl.socket + 1) tv w.os).1.1
          (env.select (chnl.socket + 1) tv w.os).1.2], rfl, ?_, ?_⟩
      · intro h0 c hc
        simp only [List.mem_singleton] at hc
        subst hc
        simp [Call.endsPolling, Call.isFailedPoll, h0]
      · intro hne
        have hlt : (env.select (chnl.socket + 1) tv w.os).1.1 < 0 := by omega
        refine ⟨fun h => absurd h hne, fun h => by omega, ?_, ?_⟩
        · simp [Call.isFailedPoll, hlt]
        · simp [quietAfterEnd, Call.endsPolling, Call.isSelectOrRecvfrom]

/-- The body of the loop of `ETH_UDP_recvData` satisfies `BodyOk` when `select`
flags the socket whenever it returns a positive count. -/
theorem recvData_body_ok {W : Type} (env : Env W) (hsel : SelectContract env)
    (expectedSize : Int) (tv : timeval) :
    BodyOk (recvData_body env expectedSize tv) := by
  intro chnl buff w
  unfold recvData_body
  simp only [sys_select, sys_recvfrom, sys_fprintf]
  by_cases h1 : (env.select (chnl.socket + 1) tv w.os).1.1 < 0
  · have hne : (env.select (chnl.socket + 1) tv w.os).1.1 ≠ 0 := by omega
    refine ⟨[Call.select (chnl.socket + 1) tv (env.select (chnl.socket + 1) tv w.os).1.1
        (env.select (chnl.socket + 1) tv w.os).1.2,
        Call.fprintf Diag.recvDataSelectFailed], ?_, ?_, ?_⟩
    · simp [h1]
    · simp only [h1, if_true]
      intro h; exact absurd h hne
    · simp only [h1, if_true]
      intro _
      refine ⟨fun h => absurd h hne, fun h => by omega, ?_, ?_⟩
      · simp [Call.isFailedPoll, h1]
      · simp [quietAfterEnd, Call.endsPolling, Call.isSelectOrRecvfrom]
  · simp only [h1, if_false]
    by_cases h2 : (env.select (chnl.socket + 1) tv w.os).1.1 > 0
    · have h3 := hsel _ _ _ h2
      simp only [h2, h3, if_true]
      by_cases h4 : (env.recvfrom chnl.socket expectedSize.toNat
          (env.select (chnl.socket + 1) tv w.os).2).1.1 = SOCKET_ERROR
      · have hlt : (env.recvfrom chnl.socket expectedSize.toNat
            (env.select (chnl.socket + 1) tv w.os).2).1.1 < 0 := by
          rw [h4]; decide
        have hne : (env.recvfrom chnl.socket expectedSize.toNat
            (env.select (chnl.socket + 1) tv w.os).2).1.1 ≠ 0 := by omega
        refine ⟨[Call.select (chnl.socket + 1) tv (env.select (chnl.socket + 1) tv w.os).1.1
            true,
            Call.recvfrom chnl.socket expectedSize.toNat
              (env.recvfrom chnl.socket expectedSize.toNat
                (env.select (chnl.socket + 1) tv w.os).2).1.1
              (env.recvfrom chnl.socket expectedSize.toNat
                (env.select (chnl.socket + 1) tv w.os).2).1.2,
            Call.fprintf Diag.recvDataRecvfromFailed], ?_, ?_, ?_⟩
        · simp [h4, h3]
        · rw [if_pos h4]
          intro h; exact absurd h hne
        · rw [if_pos h4]
          intro _
          refine ⟨fun h => absurd h hne, fun h => ?_, ?_, ?_⟩
          · have : (env.recvfrom chnl.socket expectedSize.toNat
                (env.select (chnl.socket + 1) tv w.os).2).1.1 > 0 := h
            omega
          · simp only [List.any_cons, Call.isFailedPoll, List.any_nil, Bool.or_false,
              decide_eq_true hlt, Bool.or_true, iff_true]
            exact hlt
          · simp [quietAfterEnd, Call.endsPolling, Call.isSelectOrRecvfrom, h1, hne]
      · refine ⟨[Call.select (chnl.socket + 1) tv (env.select (chnl.socket + 1) tv w.os).1.1
            true,
            Call.recvfrom chnl.socket expectedSize.toNat
              (env.recvfrom chnl.socket expectedSize.toNat
                (env.select (chnl.socket + 1) tv w.os).2).1.1
              (env.recvfrom chnl.socket expectedSize.toNat
                (env.select (chnl.socket + 1) tv w.os).2).1.2], ?_, ?_, ?_⟩
        · simp [h4, h3]
        · rw [if_neg h4]
          intro h0 c hc
          have h0' : (env.recvfrom chnl.socket expectedSize.toNat
              (env.select (chnl.socket + 1) tv w.os).2).1.1 = 0 := h0
          simp only [List.mem_cons, List.mem_singleton, List.mem_nil_iff, or_false] at hc
          rcases hc with rfl | rfl
          · simp [Call.endsPolling, Call.isFailedPoll, h1]
          · simp [Call.endsPolling, Call.isFailedPoll, h0']
        · rw [if_neg h4]
          intro hne
          have hne' : (env.recvfrom chnl.socket expectedSize.toNat
              (env.select (chnl.socket + 1) tv w.os).2).1.1 ≠ 0 := hne
          refine ⟨fun h => absurd h hne,
            fun _ => ⟨[Call.select (chnl.socket + 1) tv
              (env.select (chnl.socket + 1) tv w.os).1.1 true], _, _, _, rfl⟩, ?_, ?_⟩
          · simp [Call.isFailedPoll, h1]
          · simp [quietAfterEnd, Call.endsPolling, Call.isSelectOrRecvfrom, h1]
    · simp only [h2, if_false]
      have h0 : (env.select (chnl.socket + 1) tv w.os).1.1 = 0 := by omega
      refine ⟨[Call.select (chnl.socket + 1) tv (env.select (chnl.socket + 1) tv w.os).1.1
          (env.select (chnl.socket + 1) tv w.os).1.2], rfl, ?_, ?_⟩
      · intro _ c hc
        simp only [List.mem_singleton] at hc
        subst hc
        simp [Call.endsPolling, Call.isFailedPoll, h0]
      · intro hne
        exact absurd h0 hne

/-- Calls that neither failed nor end the polling, put in front of the calls of
a finished loop, keep `PollDone`. -/
theorem PollDone_append_left (r : Int) (pre new : List Call)
    (hpre : ∀ c ∈ pre, c.endsPolling = false ∧ c.isFailedPoll = false)
    (h : PollDone r new) : PollDone r (pre ++ new) := by
  refine ⟨?_, ?_, ?_, ?_⟩
  · intro hr
    obtain ⟨t, tm, ht⟩ := h.1 hr
    exact ⟨pre ++ t, tm, by simp [ht]⟩
  · intro hr
    obtain ⟨t, s, len, bytes, ht⟩ := h.2.1 hr
    exact ⟨pre ++ t, s, len, bytes, by simp [ht]⟩
  · have hfail : pre.any Call.isFailedPoll = false := by
      rw [List.any_eq_false]
      intro c hc
      simp [(hpre c hc).2]
    rw [h.2.2.1]
    simp only [List.any_append, hfail, Bool.false_or]
  · rw [quietAfterEnd_append_left _ _ (fun c hc => (hpre c hc).1)]
    exact h.2.2.2

/-- What `PollDone` says, with the calls spelled out. -/
theorem PollDone_spelled (r : Int) (new : List Call) (h : PollDone r new) :
    (r = 0 → ∃ t timer, new = t ++ [Call.UTIL_TimedOut timer true]) ∧
    (0 < r → ∃ t s len bytes, new = t ++ [Call.recvfrom s len r bytes]) ∧
    (r < 0 ↔ ∃ c ∈ new, c.isFailedPoll = true) ∧
    (∀ pre c post, new = pre ++ c :: post → c.endsPolling = true →
      ∀ d ∈ post, d.isSelectOrRecvfrom = false) := by
  refine ⟨h.1, h.2.1, ?_, ?_⟩
  · rw [h.2.2.1, List.any_eq_true]
  · intro pre c post hl hc
    exact quietAfterEnd_split new h.2.2.2 pre c post hl hc

/-- C11: for `ETH_UDP_recvFrom` and `ETH_UDP_recvData` on a receive-ready
descriptor with `timeout > 0`, in every environment in which `select` flags the
socket whenever it returns a positive count: when the call returns, with `new`
the calls it made, it returns 0 only if the last call is a `UTIL_TimedOut` that
reported the deadline elapsed; it returns `n > 0` only if the last call is a
`recvfrom` that returned `n`; it returns a negative value exactly when a
`select` or a `recvfrom` failed (returned a negative value); and after a failed
`select` or a `recvfrom` with a non-zero result no further `select` or
`recvfrom` is made. -/
theorem recv_return_values {W : Type} (env : Env W) (hsel : SelectContract env)
    (ETH_BUF_SIZE fuel : Nat) (chnl : t_ethUdpChnl) (buff : Mem) (size : Int)
    (timeout : Nat) (w : World W) (hrx : chnl.RxIsInit ≠ K_FALSE) (ht : 0 < timeout) :
    (∀ st, ETH_UDP_recvFrom env ETH_BUF_SIZE fuel chnl buff size timeout w = some st →
      ∃ new, st.world.trace = w.trace ++ new ∧
        (st.result = 0 → ∃ t timer, new = t ++ [Call.UTIL_TimedOut timer true]) ∧
        (0 < st.result →
          ∃ t s len bytes, new = t ++ [Call.recvfrom s len st.result bytes]) ∧
        (st.result < 0 ↔ ∃ c ∈ new, c.isFailedPoll = true) ∧
        (∀ pre c post, new = pre ++ c :: post → c.endsPolling = true →
          ∀ d ∈ post, d.isSelectOrRecvfrom = false)) ∧
    (∀ st, ETH_UDP_recvData env fuel chnl buff size timeout w = some st →
      ∃ new, st.world.trace = w.trace ++ new ∧
        (st.result = 0 → ∃ t timer, new = t ++ [Call.UTIL_TimedOut timer true]) ∧
        (0 < st.result →
          ∃ t s len bytes, new = t ++ [Call.recvfrom s len st.result bytes]) ∧
        (st.result < 0 ↔ ∃ c ∈ new, c.isFailedPoll = true) ∧
        (∀ pre c post, new = pre ++ c :: post → c.endsPolling = true →
          ∀ d ∈ post, d.isSelectOrRecvfrom = false)) := by
  have h1 : ¬ chnl.RxIsInit = 0 := hrx
  have h2 : ¬ timeout = 0 := by omega
  have hset : ∀ c ∈ [Call.UTIL_SetTimeout timeout (env.UTIL_SetTimeout timeout w.os).1],
      c.endsPolling = false ∧ c.isFailedPoll = false := by
    intro c hc
    simp only [List.mem_singleton] at hc
    subst hc
    exact ⟨rfl, rfl⟩
  constructor
  · intro st hret
    unfold ETH_UDP_recvFrom at hret
    simp only [h1, h2, if_false] at hret
    rw [recvFrom_loop_eq_pollLoop] at hret
    obtain ⟨new, hnew, hdone⟩ := pollLoop_done env _ _
      (recvFrom_body_ok env hsel ETH_BUF_SIZE size (timevalOfMs timeout)) fuel chnl buff _
      st hret
    refine ⟨[Call.UTIL_SetTimeout timeout (env.UTIL_SetTimeout timeout w.os).1] ++ new, ?_,
      PollDone_spelled _ _ (PollDone_append_left _ _ _ hset hdone)⟩
    rw [hnew]
    simp [sys_SetTimeout]
  · intro st hret
    unfold ETH_UDP_recvData at hret
    simp only [h1, h2, if_false] at hret
    rw [recvData_loop_eq_pollLoop] at hret
    obtain ⟨new, hnew, hdone⟩ := pollLoop_done env _ _
      (recvData_body_ok env hsel size (timevalOfMs timeout)) fuel chnl buff _ st hret
    refine ⟨[Call.UTIL_SetTimeout timeout (env.UTIL_SetTimeout timeout w.os).1] ++ new, ?_,
      PollDone_spelled _ _ (PollDone_append_left _ _ _ hset hdone)⟩
    rw [hnew]
    simp [sys_SetTimeout]

/-- The scripted environment with a scripted timer satisfies the assumption on
`select`. -/
theorem timedScriptEnv_select : SelectContract timedScriptEnv := by
  intro nfds tv os h
  simpa [timedScriptEnv, scriptEnv] using h

/-- Witness for C11: a receive-ready descriptor, a timeout of 100 ms, a first
`select` that finds nothing, a timer not yet elapsed, a second `select` that
finds the socket readable and a `recvfrom` of three bytes: both functions
return 3 after these calls. -/
theorem recv_return_values_witness :
    ∃ st1 st2,
      ETH_UDP_recvFrom timedScriptEnv 1500 4 udpRxReady (fun _ => 9) 16 100
        (World.start [0, 0, 1, 3]) = some st1 ∧
      ETH_UDP_recvData timedScriptEnv 4 udpRxReady (fun _ => 9) 16 100
        (World.start [0, 0, 1, 3]) = some st2 ∧
      udpRxReady.RxIsInit ≠ K_FALSE ∧ 0 < 100 ∧
      st1.result = 3 ∧ st2.result = 3 ∧
      st1.world.trace =
        [Call.UTIL_SetTimeout 100 100,
         Call.select 4 { tv_sec := 0, tv_usec := 100000 } 0 false,
         Call.UTIL_TimedOut 100 false,
         Call.select 4 { tv_sec := 0, tv_usec := 100000 } 1 true,
         Call.recvfrom 3 1500 3 [7, 7, 7]] ∧
      (∃ new, st1.world.trace = (World.start [0, 0, 1, 3]).trace ++ new ∧
        (st1.result = 0 → ∃ t timer, new = t ++ [Call.UTIL_TimedOut timer true]) ∧
        (0 < st1.result →
          ∃ t s len bytes, new = t ++ [Call.recvfrom s len st1.result bytes]) ∧
        (st1.result < 0 ↔ ∃ c ∈ new, c.isFailedPoll = true) ∧
        (∀ pre c post, new = pre ++ c :: post → c.endsPolling = true →
          ∀ d ∈ post, d.isSelectOrRecvfrom = false)) ∧
      (∃ new, st2.world.trace = (World.start [0, 0, 1, 3]).trace ++ new ∧
        (st2.result = 0 → ∃ t timer, new = t ++ [Call.UTIL_TimedOut timer true]) ∧
        (0 < st2.result →
          ∃ t s len bytes, new = t ++ [Call.recvfrom s len st2.result bytes]) ∧
        (st2.result < 0 ↔ ∃ c ∈ new, c.isFailedPoll = true) ∧
        (∀ pre c post, new = pre ++ c :: post → c.endsPolling = true →
          ∀ d ∈ post, d.isSelectOrRecvfrom = false)) :=
  ⟨_, _, rfl, rfl, by decide, by decide, by decide, by decide, by decide,
    (recv_return_values timedScriptEnv timedScriptEnv_select 1500 4 udpRxReady (fun _ => 9)
      16 100 (World.start [0, 0, 1, 3]) (by decide) (by decide)).1 _ rfl,
    (recv_return_values timedScriptEnv timedScriptEnv_select 1500 4 udpRxReady (fun _ => 9)
      16 100 (World.start [0, 0, 1, 3]) (by decide) (by decide)).2 _ rfl⟩

/-- In the scripted environment a loop whose body uses up part of the script
whenever its result is zero ends within as many iterations as the script is
long, and one more. -/
theorem pollLoop_script_returns (timer : Nat)
    (body : t_ethUdpChnl → Mem → World (List Int) → RecvState (List Int))
    (hb : ∀ c b w, (body c b w).result = 0 → (body c b w).world.os.length < w.os.length)
    (fuel : Nat) (chnl : t_ethUdpChnl) (buff : Mem) (w : World (List Int))
    (hf : w.os.length < fuel) :
    ∃ st, pollLoop timedScriptEnv timer body fuel chnl buff w = some st := by
  induction fuel generalizing chnl buff w with
  | zero => omega
  | succ fuel ih =>
    unfold pollLoop
    simp only
    by_cases h0 : (body chnl buff w).result = 0
    · simp only [h0, if_true]
      by_cases ht : (sys_TimedOut timedScriptEnv timer (body chnl buff w).world).1 = true
      · simp only [ht, if_true]
        exact ⟨_, rfl⟩
      · simp only [ht, if_false]
        apply ih
        have h1 := hb chnl buff w h0
        have h2 : (sys_TimedOut timedScriptEnv timer (body chnl buff w).world).2.os.length
            ≤ (body chnl buff w).world.os.length := by
          simp [sys_TimedOut, timedScriptEnv]
        omega
    · simp only [h0, if_false]
      exact ⟨_, rfl⟩

/-- In the scripted environment the body of the loop of `ETH_UDP_recvFrom` uses
up part of the script whenever its result is zero. -/
theorem recvFrom_body_script (ETH_BUF_SIZE : Nat) (maxSize : Int) (tv : timeval)
    (c : t_ethUdpChnl) (b : Mem) (w : World (List Int))
    (h : (recvFrom_body timedScriptEnv ETH_BUF_SIZE maxSize tv c b w).result = 0) :
    (recvFrom_body timedScriptEnv ETH_BUF_SIZE maxSize tv c b w).world.os.length
      < w.os.length := by
  obtain ⟨q, tr⟩ := w
  cases q with
  | nil =>
    simp [recvFrom_body, sys_select, sys_fprintf, timedScriptEnv, scriptEnv,
      SOCKET_ERROR] at h
  | cons a q =>
    unfold recvFrom_body
    simp only [sys_select, sys_recvfrom, sys_fprintf, timedScriptEnv, scriptEnv,
      List.headD_cons, List.tail_cons, List.length_cons]
    split
    · simp
    · split
      · split
        · split
          · simp only [sys_fprintf, List.length_tail]; omega
          · simp only [List.length_tail]; omega
        · simp
      · simp

/-- In the scripted environment the body of the loop of `ETH_UDP_recvData` uses
up part of the script whenever its result is zero. -/
theorem recvData_body_script (expectedSize : Int) (tv : timeval)
    (c : t_ethUdpChnl) (b : Mem) (w : World (List Int))
    (h : (recvData_body timedScriptEnv expectedSize tv c b w).result = 0) :
    (recvData_body timedScriptEnv expectedSize tv c b w).world.os.length
      < w.os.length := by
  obtain ⟨q, tr⟩ := w
  cases q with
  | nil =>
    simp [recvData_body, sys_select, sys_fprintf, timedScriptEnv, scriptEnv,
      SOCKET_ERROR] at h
  | cons a q =>
    unfold recvData_body
    simp only [sys_select, sys_recvfrom, sys_fprintf, timedScriptEnv, scriptEnv,
      List.headD_cons, List.tail_cons, List.length_cons]
    split
    · simp
    · split
      · split
        · split
          · simp only [sys_fprintf, List.length_tail]; omega
          · simp only [List.length_tail]; omega
        · simp
      · simp

/-- On every finite script of outcomes of `select`, `recvfrom` and
`UTIL_TimedOut`, `ETH_UDP_recvFrom` and `ETH_UDP_recvData` return: as many
iterations as the script is long, and one more, are enough. -/
theorem recv_returns_on_every_script (ETH_BUF_SIZE : Nat) (chnl : t_ethUdpChnl) (buff : Mem)
    (size : Int) (timeout : Nat) (q : List Int) (trace : List Call) :
    (∃ st, ETH_UDP_recvFrom timedScriptEnv ETH_BUF_SIZE (q.length + 1) chnl buff size timeout
        { os := q, trace := trace } = some st) ∧
    (∃ st, ETH_UDP_recvData timedScriptEnv (q.length + 1) chnl buff size timeout
        { os := q, trace := trace } = some st) := by
  constructor
  · unfold ETH_UDP_recvFrom
    split
    · exact ⟨_, rfl⟩
    · split
      · exact ⟨_, rfl⟩
      · simp only [recvFrom_loop_eq_pollLoop]
        apply pollLoop_script_returns _ _ (recvFrom_body_script ETH_BUF_SIZE size _)
        simp [sys_SetTimeout, timedScriptEnv, scriptEnv]
  · unfold ETH_UDP_recvData
    split
    · exact ⟨_, rfl⟩
    · split
      · exact ⟨_, rfl⟩
      · simp only [recvData_loop_eq_pollLoop]
        apply pollLoop_script_returns _ _ (recvData_body_script size _)
        simp [sys_SetTimeout, timedScriptEnv, scriptEnv]

end Iptx
